import Mathlib

/-!
Kinematic scene synchronisation of the SlicerRos2 module.

A shallow embedding of `vtkSlicerSlicerRos2Logic::loadRobotSTLModels`
(`Logic/vtkSlicerSlicerRos2Logic.cxx`) together with the parts of the MRML
scene it touches, and of the methods of `vtkMRMLROS2ParameterTemplatedInternals`
(`MRML/vtkMRMLROS2ParameterInternals.h`), followed by the properties established
about them.

Conventions of the embedding:

* a C++ `double` is a rational number;
* a `KDL::Frame` is the 4x4 matrix that `Frame::operator()(i,j)` reads;
* the MRML scene is the list of its nodes in the order of `AddNode`; the ID of a
  node is its position in that list, so IDs are unique and never reused;
* the URDF parser, the KDL tree, the KDL solver, the environment and the
  embedded Python interpreter are collaborators outside the module: what they
  return is a field of `Env`;
* a URDF model that loaded has a root link, and a transform node just built by
  `New()` hands out its matrix and its `vtkTransform`;
* `vtkMRMLTransformStorageNode::ReadData` has no file name to read from and
  leaves the node it is given as it was;
* dereferencing a null pointer and indexing a `std::vector` past its end stop
  the run with a `Fault`; the scene reached at that point is kept.
-/

namespace SlicerRos2

/-! ## Data model -/

/-- A 4x4 matrix of doubles (`vtkMatrix4x4`). -/
abbrev Mat4 := Matrix (Fin 4) (Fin 4) ℚ

/-- A `KDL::Frame`, seen through `operator()(i,j)`. -/
abbrev Frame := Mat4

/-- The MRML node classes the function distinguishes through `SafeDownCast`. -/
inductive NodeClass where
  | model
  | transform
  | linearTransform
  | transformStorage
  | other
  deriving DecidableEq, Repr

/-- The operations `vtkTransform` concatenates (angles in degrees). -/
inductive TransformOp where
  | translate (x y z : ℚ)
  | rotateX (angle : ℚ)
  | rotateY (angle : ℚ)
  | rotateZ (angle : ℚ)
  deriving DecidableEq

/-- The transform-to-parent of a transform node: a matrix followed by the
operations concatenated onto it, in order. -/
structure ToParent where
  matrix : Mat4
  ops : List TransformOp

/-- A node of the MRML scene. `transformNodeID` is the parent transform
reference set by `SetAndObserveTransformNodeID`. -/
structure Node where
  cls : NodeClass
  name : String
  transformNodeID : Option Nat
  storageNodeID : Option Nat
  toParent : ToParent

/-- The MRML scene: its nodes, in the order they were added. -/
abbrev Scene := List Node

/-- What stops a run before it returns. -/
inductive Fault where
  | nullDereference
  | outOfBounds
  deriving DecidableEq, Repr

/-- One item written to `std::cerr` or `std::cout`; line ends are left out. -/
inductive LogEntry where
  | cerr (text : String)
  | cerrNat (n : Nat)
  | cout (text : String)
  | coutFrame (f : Frame)
  | coutScalar (q : ℚ)

/-- The state of a run: the scene, what was printed so far, and the fault
that stopped the run, if any. The function returns `void`, so a run that
returns hands nothing else to its caller. -/
structure Run where
  scene : Scene
  log : List LogEntry
  fault : Option Fault

/-- The collaborators of `loadRobotSTLModels`; `χ` is the type of a
`KDL::Chain`. -/
structure Env (χ : Type) where
  /-- The value of `getenv ("HOME")`; `none` is the null pointer. -/
  home : Option String
  /-- The result of `urdf::Model::initFile` on a path. -/
  initFile : String → Bool
  /-- The result of `kdl_parser::treeFromUrdfModel`. -/
  treeFromUrdfModel : Bool
  /-- The names of the child links of the root link of the URDF model. -/
  childLinks : List String
  /-- Whether the module is compiled with `Slicer_USE_PYTHONQT`. -/
  pythonQt : Bool
  /-- The nodes `slicer.util.loadModel` adds to the given scene for a path. -/
  loadModel : Scene → String → List Node
  /-- The result of `KDL::Tree::getChain` for a base and a tip frame. -/
  getChain : String → String → Option χ
  /-- The result of `KDL::Chain::getNrOfSegments`. -/
  getNrOfSegments : χ → Nat
  /-- The frame the default constructor of `KDL::Frame` builds. -/
  defaultFrame : Frame
  /-- The result of `KDL::ChainFkSolverPos_recursive::JntToCart`: the status it
  returns and the content of the frame vector afterwards. -/
  JntToCart : χ → List ℚ → List Frame → Int × List Frame

/-! ## Scene operations -/

/-- A node of class `vtkMRMLTransformStorageNode` as `vtkNew` builds it. The
function gives it no name; a default name the scene may give it on `AddNode` is
not recorded. -/
def newTransformStorageNode : Node :=
  { cls := .transformStorage, name := "", transformNodeID := none,
    storageNodeID := none, toParent := ⟨1, []⟩ }

/-- A node of class `vtkMRMLLinearTransformNode` as `New()` builds it: the
identity transform, no parent, no storage node. -/
def newLinearTransformNode : Node :=
  { cls := .linearTransform, name := "", transformNodeID := none,
    storageNodeID := none, toParent := ⟨1, []⟩ }

/-- The scene after `vtkMRMLScene::AddNode`, and the ID given to the node. -/
def AddNode (scene : Scene) (n : Node) : Scene × Nat :=
  (scene ++ [n], scene.length)

/-- The ID of the first node of the scene with the given name
(`vtkMRMLScene::GetFirstNodeByName`), `none` for the null pointer. -/
def GetFirstNodeByName : Scene → String → Option Nat
  | [], _ => none
  | n :: rest, name =>
    if n.name = name then some 0
    else (GetFirstNodeByName rest name).map (· + 1)

/-- Whether `vtkMRMLModelNode::SafeDownCast` keeps a node of this class. -/
def NodeClass.isModel : NodeClass → Bool
  | .model => true
  | _ => false

/-- Whether `vtkMRMLTransformNode::SafeDownCast` keeps a node of this class. -/
def NodeClass.isTransform : NodeClass → Bool
  | .transform => true
  | .linearTransform => true
  | _ => false

/-- The pointer `SafeDownCast` returns for the result of a lookup: the same ID
when the node has a class the cast accepts, otherwise null. -/
def SafeDownCast (accepts : NodeClass → Bool) (scene : Scene) (found : Option Nat) :
    Option Nat :=
  match found with
  | none => none
  | some id =>
    match scene[id]? with
    | none => none
    | some n => if accepts n.cls then some id else none

/-- The scene after `node->SetAndObserveTransformNodeID(parent)` on node `id`. -/
def SetAndObserveTransformNodeID (scene : Scene) (id parent : Nat) : Scene :=
  scene.modify (fun n => { n with transformNodeID := some parent }) id

/-- The scene after `node->SetAndObserveStorageNodeID(storage)` on node `id`. -/
def SetAndObserveStorageNodeID (scene : Scene) (id storage : Nat) : Scene :=
  scene.modify (fun n => { n with storageNodeID := some storage }) id

/-- The matrix after `vtkMatrix4x4::SetElement(i, j, v)`. -/
def SetElement (m : Mat4) (i j : Fin 4) (v : ℚ) : Mat4 :=
  Matrix.of fun a b => if a = i ∧ b = j then v else m a b

/-- The scene after `node->SetMatrixTransformToParent(m)` on node `id`. -/
def SetMatrixTransformToParent (scene : Scene) (id : Nat) (m : Mat4) : Scene :=
  scene.modify (fun n => { n with toParent := ⟨m, []⟩ }) id

/-- The scene after the operations `ops` are concatenated onto the
`vtkTransform` of node `id` and the transform is set back on the node. -/
def ConcatenateToParent (scene : Scene) (id : Nat) (ops : List TransformOp) : Scene :=
  scene.modify (fun n => { n with toParent := ⟨n.toParent.matrix, n.toParent.ops ++ ops⟩ }) id

/-! ## The tables of `loadRobotSTLModels` -/

def link_names : List String :=
  ["base", "torso", "upper_arm", "lower_arm", "wrist", "tip", "stylus"]

def link_names_FK : List String :=
  ["forwardKin_torso", "forwardKin_upperarm", "forwardKin_lower_arm",
   "forwardKin_wrist", "forwardKin_tip", "forwardKin_stylus"]

def link_translation_x : List ℚ := [0, 0, 0.0075, 0, 0, 0, 0]

def link_translation_y : List ℚ := [-0.02, 0, 0, 0, 0, 0, -0.039]

def link_translation_z : List ℚ := [0, 0.036, 0, 0, 0, 0, 0]

def link_rotation_x : List ℚ := [0, -90, 0, 90, 180, -90, 90]

def link_rotation_y : List ℚ := [0, 0, 0, 0, 0, 0, 90]

def link_rotation_z : List ℚ := [0, 0, 0, 0, 0, 0, 0]

/-- The mesh files the embedded script loads, in the order of the script. -/
def meshFiles : List String :=
  ["base.stl", "torso.stl", "wrist.stl", "upper_arm.stl", "tip.stl", "stylus.stl",
   "lower_arm.stl"]

/-- The matrix `LPSToRAS_matrix`: a new `vtkMatrix4x4` (the identity) after
`SetElement(0,0,-1)` and `SetElement(1,1,-1)`. -/
def LPSToRAS_matrix : Mat4 :=
  SetElement (SetElement 1 0 0 (-1)) 1 1 (-1)

/-! ## The function -/

/-- The scene after the embedded Python script: one `loadModel` per mesh file. -/
def runPythonScript {χ : Type} (env : Env χ) (home : String) (scene : Scene) : Scene :=
  meshFiles.foldl
    (fun s file => s ++ env.loadModel s (home ++ "/ros2_ws/src/SlicerRos2/models/meshes/" ++ file))
    scene

/-- What `for (KDL::Frame i: FK_frames) std::cout << i << ' '` prints. -/
def printFrames (FK_frames : List Frame) : List LogEntry :=
  FK_frames.foldr (fun f rest => .coutFrame f :: .cout " " :: rest) []

/-- The vector `FK_frames` after `resize(nj)`. -/
def initialFrames {χ : Type} (env : Env χ) (nj : Nat) : List Frame :=
  List.replicate nj env.defaultFrame

/-- One turn of the loop over the joint position array: the value is printed,
the entry of index 1 is set to 1.0, the value is printed again. -/
def jointPositionStep (acc : List ℚ × List LogEntry) (q : Nat) : List ℚ × List LogEntry :=
  let before := acc.1.getD q 0
  let positions := if q = 1 then acc.1.set q 1 else acc.1
  (positions, acc.2 ++ [.coutScalar before, .coutScalar (positions.getD q 0)])

/-- The array `jointpositions` (a `KDL::JntArray(nj)`, all zero) after the
loop over `q < nj`, with what the loop printed. -/
def jointPositionLoop (nj : Nat) : List ℚ × List LogEntry :=
  (List.range nj).foldl jointPositionStep (List.replicate nj 0, [])

/-- The matrix after the double loop `matrix->SetElement(i,j, cartpos(i,j))`. -/
def copyFrameElements (matrix : Mat4) (cartpos : Frame) : Mat4 :=
  ([0, 1, 2, 3] : List (Fin 4)).foldl
    (fun m i => ([0, 1, 2, 3] : List (Fin 4)).foldl (fun m j => SetElement m i j (cartpos i j)) m)
    matrix

/-- One turn `l` of the loop that creates a transform node per frame. -/
def fkNodeIteration (FK_frames : List Frame) (st : Run) (l : Nat) : Run :=
  match st.fault with
  | some _ => st
  | none =>
    let added := AddNode st.scene newTransformStorageNode
    let storageID := added.2
    let added := AddNode added.1 { newLinearTransformNode with name := link_names_FK.getD l "" }
    let tnodeID := added.2
    let scene := SetAndObserveStorageNodeID added.1 tnodeID storageID
    match FK_frames[l]? with
    | none => { st with scene := scene, fault := some .outOfBounds }
    | some cartpos =>
      let current := ((scene[tnodeID]?).map (·.toParent.matrix)).getD 1
      let matrix := copyFrameElements current cartpos
      { st with scene := SetMatrixTransformToParent scene tnodeID matrix }

/-- One turn `k` of the loop that places each link: an `InitialPosition` node,
an `LPSToRAS` node, and the parent references between them, the model of the
link and the forward-kinematics node of the previous frame. -/
def initialPositionIteration (st : Run) (k : Nat) : Run :=
  match st.fault with
  | some _ => st
  | none =>
    let added := AddNode st.scene newTransformStorageNode
    let storageID := added.2
    let added := AddNode added.1 { newLinearTransformNode with name := "InitialPosition" }
    let tnodeID := added.2
    let scene := SetAndObserveStorageNodeID added.1 tnodeID storageID
    let scene := ConcatenateToParent scene tnodeID
      [.translate (link_translation_x.getD k 0) (link_translation_y.getD k 0)
        (link_translation_z.getD k 0)]
    let scene := ConcatenateToParent scene tnodeID
      [.rotateZ (link_rotation_z.getD k 0), .rotateY (link_rotation_y.getD k 0),
       .rotateX (link_rotation_x.getD k 0)]
    let added := AddNode scene newTransformStorageNode
    let storageID3 := added.2
    let added := AddNode added.1 { newLinearTransformNode with name := "LPSToRAS" }
    let lpsID := added.2
    let scene := SetAndObserveStorageNodeID added.1 lpsID storageID3
    let scene := SetMatrixTransformToParent scene lpsID LPSToRAS_matrix
    if k = 0 then
      let modelNode := SafeDownCast NodeClass.isModel scene
        (GetFirstNodeByName scene (link_names.getD k ""))
      let scene := SetAndObserveTransformNodeID scene lpsID tnodeID
      match modelNode with
      | none => { st with scene := scene, fault := some .nullDereference }
      | some modelID => { st with scene := SetAndObserveTransformNodeID scene modelID lpsID }
    else
      let transformNode := SafeDownCast NodeClass.isTransform scene
        (GetFirstNodeByName scene (link_names_FK.getD (k - 1) ""))
      match transformNode with
      | none => { st with scene := scene, fault := some .nullDereference }
      | some transformID =>
        let scene := SetAndObserveTransformNodeID scene tnodeID transformID
        let scene := SetAndObserveTransformNodeID scene lpsID tnodeID
        let modelNode := SafeDownCast NodeClass.isModel scene
          (GetFirstNodeByName scene (link_names.getD k ""))
        match modelNode with
        | none => { st with scene := scene, fault := some .nullDereference }
        | some modelID => { st with scene := SetAndObserveTransformNodeID scene modelID lpsID }

/-- The two node loops of `loadRobotSTLModels`, from the frames the solver
left in `FK_frames`. -/
def synchronize (FK_frames : List Frame) (st : Run) : Run :=
  (List.range 7).foldl initialPositionIteration
    ((List.range 6).foldl (fkNodeIteration FK_frames) st)

/-- The function `vtkSlicerSlicerRos2Logic::loadRobotSTLModels`, run on a scene. -/
def loadRobotSTLModels {χ : Type} (env : Env χ) (scene : Scene) : Run :=
  match env.home with
  | none => { scene := scene, log := [], fault := some .nullDereference }
  | some home =>
    if !env.initFile (home ++ "/ros2_ws/src/SlicerRos2/models/omni.urdf") then
      { scene := scene, log := [], fault := none }
    else if !env.treeFromUrdfModel then
      { scene := scene, log := [], fault := none }
    else
      let log := env.childLinks.map LogEntry.cerr
      let scene := if env.pythonQt then runPythonScript env home scene else scene
      match env.getChain "base" "stylus" with
      | none => { scene := scene, log := log ++ [.cerr "not working"], fault := none }
      | some kdl_chain =>
        let nj := env.getNrOfSegments kdl_chain
        let log := log ++ [.cerr "The chain has this many segments", .cerrNat nj]
        let FK_frames := initialFrames env nj
        let log := log ++ printFrames FK_frames
        let log := log ++ [.cerr "This is the joint position array"]
        let jointpositions := jointPositionLoop nj
        let log := log ++ jointpositions.2
        let solved := env.JntToCart kdl_chain jointpositions.1 FK_frames
        let kinematics_status : Bool := solved.1 ≠ 0
        let FK_frames := solved.2
        let log := log ++
          [if kinematics_status then .cout "Thanks KDL!"
           else .cout "Error: could not calculate forward kinematics :( "]
        let log := log ++ [.cout "After FK Solver"] ++ printFrames FK_frames
        synchronize FK_frames { scene := scene, log := log, fault := none }

/-! ## Derived notions used in the statements -/

/-- The scene the two node loops start from: the input scene after the embedded
script, when the module is compiled with it. -/
def sceneForSync {χ : Type} (env : Env χ) (scene : Scene) : Scene :=
  match env.home with
  | none => scene
  | some home => if env.pythonQt then runPythonScript env home scene else scene

/-- The content of `FK_frames` after the call of the solver on a chain. -/
def solvedFrames {χ : Type} (env : Env χ) (kdl_chain : χ) : List Frame :=
  (env.JntToCart kdl_chain (jointPositionLoop (env.getNrOfSegments kdl_chain)).1
    (initialFrames env (env.getNrOfSegments kdl_chain))).2

/-- The run reaches the end of the function: the description loads and parses,
the chain from "base" to "stylus" is `kdl_chain`, and no fault stops the run. -/
def Completes {χ : Type} (env : Env χ) (scene : Scene) (kdl_chain : χ) : Prop :=
  (∃ home, env.home = some home ∧
    env.initFile (home ++ "/ros2_ws/src/SlicerRos2/models/omni.urdf") = true) ∧
  env.treeFromUrdfModel = true ∧
  env.getChain "base" "stylus" = some kdl_chain ∧
  (loadRobotSTLModels env scene).fault = none

/-- The number of transform nodes of a scene. -/
def transformCount (scene : Scene) : Nat :=
  scene.countP fun n => n.cls.isTransform

/-- The number of transform nodes of a scene that carry the given name. -/
def namedTransformCount (name : String) (scene : Scene) : Nat :=
  scene.countP fun n => n.cls.isTransform && n.name == name

/-- The IDs met by following the parent transform reference from node `id`,
nearest first, for at most `fuel` steps. -/
def parentPath (scene : Scene) : Nat → Nat → List Nat
  | 0, _ => []
  | fuel + 1, id =>
    match scene[id]? with
    | none => []
    | some n =>
      match n.transformNodeID with
      | none => []
      | some parent => parent :: parentPath scene fuel parent

/-- Whether node `id` of the scene is a correction node: a transform node named
"LPSToRAS". -/
def isCorrectionNode (scene : Scene) (id : Nat) : Bool :=
  match scene[id]? with
  | none => false
  | some n => n.cls.isTransform && n.name == "LPSToRAS"

/-- The node the loop over the frames leaves in the scene for frame `l`. -/
def fkNode (storageID l : Nat) (cartpos : Frame) : Node :=
  { cls := .linearTransform, name := link_names_FK.getD l "", transformNodeID := none,
    storageNodeID := some storageID, toParent := ⟨cartpos, []⟩ }

/-- The nodes the loop over the frames appends for the turns `ls`, the first of
them getting the ID `base`. -/
def fkNodes (FK_frames : List Frame) : Nat → List Nat → List Node
  | _, [] => []
  | base, l :: ls =>
    newTransformStorageNode :: fkNode base l (FK_frames.getD l 1) ::
      fkNodes FK_frames (base + 2) ls

/-- The `InitialPosition` node of link `k` once its turn is over. -/
def initialPositionNode (storageID k : Nat) (parent : Option Nat) : Node :=
  { cls := .linearTransform, name := "InitialPosition", transformNodeID := parent,
    storageNodeID := some storageID,
    toParent := ⟨1, [.translate (link_translation_x.getD k 0) (link_translation_y.getD k 0)
        (link_translation_z.getD k 0), .rotateZ (link_rotation_z.getD k 0),
        .rotateY (link_rotation_y.getD k 0), .rotateX (link_rotation_x.getD k 0)]⟩ }

/-- The `LPSToRAS` node of a link once its turn is over. -/
def lpsNode (storageID tnodeID : Nat) : Node :=
  { cls := .linearTransform, name := "LPSToRAS", transformNodeID := some tnodeID,
    storageNodeID := some storageID, toParent := ⟨LPSToRAS_matrix, []⟩ }

/-- The four nodes turn `k` of the placement loop appends, the first of them
getting the ID `base`. -/
def placedNodes (base k : Nat) (parent : Option Nat) : List Node :=
  [newTransformStorageNode, initialPositionNode base k parent, newTransformStorageNode,
   lpsNode (base + 2) (base + 1)]

/-- Link `k` is wired in the scene: the first node named `link_names[k]` is a
model whose parent is an `LPSToRAS` node holding the correction matrix, whose
parent is an `InitialPosition` node holding the translation and the rotations
of link `k`; that node has no parent for `k = 0` and for `k ≥ 1` its parent is
the first node named `link_names_FK[k-1]`, a transform node. -/
def LinkWired (scene : Scene) (k : Nat) : Prop :=
  ∃ m c p model correction initial,
    GetFirstNodeByName scene (link_names.getD k "") = some m ∧
    scene[m]? = some model ∧ model.cls = NodeClass.model ∧
    model.transformNodeID = some c ∧
    scene[c]? = some correction ∧ correction.cls = NodeClass.linearTransform ∧
    correction.name = "LPSToRAS" ∧
    correction.toParent.matrix = LPSToRAS_matrix ∧ correction.toParent.ops = [] ∧
    correction.transformNodeID = some p ∧
    scene[p]? = some initial ∧ initial.cls = NodeClass.linearTransform ∧
    initial.name = "InitialPosition" ∧
    initial.toParent = (initialPositionNode 0 k none).toParent ∧
    (k = 0 → initial.transformNodeID = none) ∧
    (1 ≤ k → ∃ f fk, initial.transformNodeID = some f ∧
      GetFirstNodeByName scene (link_names_FK.getD (k - 1) "") = some f ∧
      scene[f]? = some fk ∧ fk.cls.isTransform = true)

/-- No node that carries one of the names of `link_names_FK` has a parent
transform. -/
def FKNodesUnparented (scene : Scene) : Prop :=
  ∀ (i : Nat) (n : Node), scene[i]? = some n → n.name ∈ link_names_FK →
    n.transformNodeID = none

/-! ## The forward-kinematics solver of the specification

The module calls `KDL::ChainFkSolverPos_recursive::JntToCart`, which belongs to
the KDL library and not to the module. The definitions of this section follow
section 4.3 of the specification instead. -/

/-- Modelled from the spec: the joint types of the data model (section 3); the
solver of the module is the one of the KDL library, which its sources do not
contain. -/
inductive JointType where
  | fixed
  | rotational
  | prismatic
  deriving DecidableEq, Repr

/-- Modelled from the spec: a joint of a chain (section 3), with the axis it
declares and the fixed frame-to-frame offset the solver composes (section 4.3);
it stands for a segment of the `KDL::Chain` the sources do not contain. -/
structure Joint where
  name : String
  type : JointType
  axis : Fin 3 → ℚ
  offset : Mat4

/-- Modelled from the spec: a chain is the ordered sequence of its joints
(section 3); it stands for the `KDL::Chain` the sources do not contain. -/
abbrev Chain := List Joint

/-- Modelled from the spec: the cosine and the sine the motion transform of a
rotational joint needs (angles in radians, section 4.3); they are the functions
of the C library, which the sources do not contain. -/
structure Trig where
  cos : ℚ → ℚ
  sin : ℚ → ℚ

/-- Modelled from the spec: the rotation about a declared unit axis by an
angle (section 4.3, "rotation about its declared axis by that scalar"); the
KDL joint pose it stands for is not in the sources. -/
def rotationAbout (t : Trig) (axis : Fin 3 → ℚ) (q : ℚ) : Mat4 :=
  let c := t.cos q
  let s := t.sin q
  let x := axis 0
  let y := axis 1
  let z := axis 2
  Matrix.of ![![c + x * x * (1 - c), x * y * (1 - c) - z * s, x * z * (1 - c) + y * s, 0],
              ![y * x * (1 - c) + z * s, c + y * y * (1 - c), y * z * (1 - c) - x * s, 0],
              ![z * x * (1 - c) - y * s, z * y * (1 - c) + x * s, c + z * z * (1 - c), 0],
              ![0, 0, 0, 1]]

/-- Modelled from the spec: the translation along a declared axis by a length
(section 4.3, "along its declared axis by that scalar"); the KDL joint pose it
stands for is not in the sources. -/
def translationAlong (axis : Fin 3 → ℚ) (q : ℚ) : Mat4 :=
  Matrix.of ![![1, 0, 0, q * axis 0],
              ![0, 1, 0, q * axis 1],
              ![0, 0, 1, q * axis 2],
              ![0, 0, 0, 1]]

/-- Modelled from the spec: the motion transform of a joint for a configuration
value (section 4.3); the KDL joint pose it stands for is not in the sources. -/
def motion (t : Trig) (j : Joint) (q : ℚ) : Mat4 :=
  match j.type with
  | .fixed => 1
  | .rotational => rotationAbout t j.axis q
  | .prismatic => translationAlong j.axis q

/-- Modelled from the spec: the errors of the solver (section 7); the KDL
solver whose status they stand for is not in the sources. -/
inductive FKError where
  | configurationLengthMismatch
  | singularChain
  deriving DecidableEq, Repr

/-- Modelled from the spec: the single pass of section 4.3 from a running
transform: each joint composes the running transform with its fixed offset and
its motion transform, and the result is the pose of the segment. It stands for
the loop of the KDL solver, which is not in the sources. -/
def solveFrom (t : Trig) (running : Mat4) : Chain → List ℚ → List Mat4
  | [], _ => []
  | _ :: _, [] => []
  | j :: js, q :: qs =>
    let next := running * j.offset * motion t j q
    next :: solveFrom t next js qs

/-- Modelled from the spec: `solve(chain, jointConfiguration)` of section 4.3:
the configuration must have the length of the chain, the pass starts at the
identity, and an empty chain yields an empty pose sequence (a caller that needs
a non-empty result checks that itself). It stands for
`KDL::ChainFkSolverPos_recursive::JntToCart`, which is not in the sources. -/
def solve (t : Trig) (chain : Chain) (cfg : List ℚ) : Except FKError (List Mat4) :=
  if cfg.length = chain.length then .ok (solveFrom t 1 chain cfg)
  else .error .configurationLengthMismatch

/-- Modelled from the spec: the solver of section 4.3 behind the interface of
`JntToCart` (not in the sources): status 0 and the poses in the frame vector
when it succeeds, a negative status and the vector as it was when it fails. -/
def specJntToCart (t : Trig) (chain : Chain) (q : List ℚ) (frames : List Frame) :
    Int × List Frame :=
  match solve t chain q with
  | .ok poses => (0, poses)
  | .error _ => (-1, frames)

/-- An environment whose chains are those of the specification and whose solver
is `specJntToCart`. -/
def withSpecSolver (t : Trig) (env : Env Chain) : Env Chain :=
  { env with getNrOfSegments := List.length, JntToCart := specJntToCart t }

/-- The products of the fixed offsets of a chain, accumulated from a running
transform: one per segment. -/
def accumulatedOffsets (running : Mat4) : Chain → List Mat4
  | [] => []
  | j :: js => (running * j.offset) :: accumulatedOffsets (running * j.offset) js

/-! ## Inputs used to evaluate the function -/

/-- A model node with the given name, as loading a mesh adds it. -/
def exampleModel (name : String) : Node :=
  { cls := .model, name := name, transformNodeID := none, storageNodeID := none,
    toParent := ⟨1, []⟩ }

/-- A scene that holds one model per link name and nothing else. -/
def exampleScene : Scene := link_names.map exampleModel

/-- An environment in which the description loads, the chain has six segments,
no script runs, and the solver returns the given status and leaves the frame
vector as it was. -/
def exampleEnv (status : Int) : Env Nat :=
  { home := some "/home/user", initFile := fun _ => true, treeFromUrdfModel := true,
    childLinks := ["torso"], pythonQt := false, loadModel := fun _ _ => [],
    getChain := fun _ _ => some 6, getNrOfSegments := fun n => n, defaultFrame := 1,
    JntToCart := fun _ _ frames => (status, frames) }

/-- The environment `exampleEnv 0` with a description that fails to load. -/
def parseFailEnv : Env Nat :=
  { exampleEnv 0 with initFile := fun _ => false }

/-- The environment `exampleEnv 0` with no chain from "base" to "stylus". -/
def noChainEnv : Env Nat :=
  { exampleEnv 0 with getChain := fun _ _ => none }

/-- A cosine and a sine over the rationals that are exact at 0. -/
def exampleTrig : Trig :=
  { cos := fun x => 1 - x * x / 2, sin := fun x => x }

/-- A rotational joint about the z axis with a zero fixed offset. -/
def exampleJoint (name : String) : Joint :=
  { name := name, type := .rotational, axis := ![0, 0, 1], offset := 1 }

/-- A chain of three rotational joints with zero fixed offsets. -/
def exampleChain : Chain :=
  [exampleJoint "waist", exampleJoint "shoulder", exampleJoint "elbow"]

/-- An environment over the chains of the specification, before a solver is
plugged in. -/
def exampleChainEnv : Env Chain :=
  { home := some "/home/user", initFile := fun _ => true, treeFromUrdfModel := true,
    childLinks := ["torso"], pythonQt := false, loadModel := fun _ _ => [],
    getChain := fun _ _ => some exampleChain, getNrOfSegments := List.length,
    defaultFrame := 1, JntToCart := fun _ _ frames => (0, frames) }

/-! ## The parameter internals (`MRML/vtkMRMLROS2ParameterInternals.h`)

The scene handed to `AddToROS2Node` is the list of its nodes, and a node ID is
the string `GetID` returns. The parameter node `mMRMLNode` is kept apart from
that list: a node of class `vtkMRMLROS2NODENode` is never the parameter node.
The scene pointer is taken to be non-null and every node of the scene to have a
name. -/

/-- The node references of a MRML node: for each role, the referenced IDs in
order. -/
abbrev NodeReferences := String → List String

/-- The value of `vtkMRMLNode::GetNumberOfNodeReferences(role)`. -/
def GetNumberOfNodeReferences (refs : NodeReferences) (role : String) : Nat :=
  (refs role).length

/-- The references after `vtkMRMLNode::SetNthNodeReferenceID(role, n, id)`: a
non-empty ID replaces the reference of index `n` when there is one and is
appended otherwise; a null or empty ID removes the reference of index `n`. -/
def SetNthNodeReferenceID (refs : NodeReferences) (role : String) (n : Nat)
    (id : Option String) : NodeReferences :=
  Function.update refs role
    (match id with
     | none => (refs role).eraseIdx n
     | some i =>
       if i = "" then (refs role).eraseIdx n
       else if n < (refs role).length then (refs role).set n i
       else refs role ++ [i])

/-- The references after `vtkMRMLNode::SetNodeReferenceID(role, id)`, which
sets the reference of index 0. -/
def SetNodeReferenceID (refs : NodeReferences) (role : String) (id : Option String) :
    NodeReferences :=
  SetNthNodeReferenceID refs role 0 id

/-- A node of the scene as `AddToROS2Node` sees it: its ID and name, whether
`dynamic_cast<vtkMRMLROS2NODENode *>` keeps it, the `mNodePointer` of its
internals (a handle of the `rclcpp::Node`, `none` for a null pointer) and its
node references. -/
structure ParameterSceneNode where
  id : String
  name : String
  isROS2NODENode : Bool
  mNodePointer : Option Nat
  references : NodeReferences

/-- A `rclcpp::ParameterEventHandler`, known by the node it was built on. -/
structure ParameterEventHandler where
  node : Option Nat

/-- A `rclcpp::ParameterEventCallbackHandle`, known by what the callback it
registers captured. -/
structure ParameterEventCallbackHandle where
  trackedNodeName : String
  nodePointer : Option Nat

/-- The parameter node `mMRMLNode` as the internals use it: its ID (`none` when
`GetID` is null), the counter `mNumberOfMessages`, the number of calls of
`Modified()` the internals made on it, and its node references. -/
structure ParameterNode where
  id : Option String
  mNumberOfMessages : Nat
  modifiedCalls : Nat
  references : NodeReferences

/-- The members of `vtkMRMLROS2ParameterTemplatedInternals`; `μ` is the message
type `_ros_type`. -/
structure ParameterInternals (μ : Type) where
  mLastMessageROS : μ
  mSubscription : Option Nat
  param_subscriber_ : Option ParameterEventHandler
  cb_handle : Option ParameterEventCallbackHandle

/-- What the methods of the internals read and write: the scene, the parameter
node and the members. -/
structure ParameterWorld (μ : Type) where
  scene : List ParameterSceneNode
  mMRMLNode : ParameterNode
  internals : ParameterInternals μ

/-- What a call of `AddToROS2Node` leaves: the value it returns, the content of
`errorMessage` and the world. -/
structure AddToROS2NodeResult (μ : Type) where
  returned : Bool
  errorMessage : String
  world : ParameterWorld μ

/-- The members as the constructor leaves them. -/
def newParameterInternals {μ : Type} (message : μ) : ParameterInternals μ :=
  { mLastMessageROS := message, mSubscription := none, param_subscriber_ := none,
    cb_handle := none }

/-- The result of `vtkMRMLScene::GetNodeByID`: the position and the content of
the first node with the given ID, `none` for the null pointer. -/
def GetNodeByID : List ParameterSceneNode → String → Option (Nat × ParameterSceneNode)
  | [], _ => none
  | n :: rest, id =>
    if n.id = id then some (0, n)
    else (GetNodeByID rest id).map fun found => (found.1 + 1, found.2)

/-- The method `ParameterCallback`. -/
def ParameterCallback {μ : Type} (w : ParameterWorld μ) (message : μ) : ParameterWorld μ :=
  { w with
    internals := { w.internals with mLastMessageROS := message }
    mMRMLNode := { w.mMRMLNode with
      mNumberOfMessages := w.mMRMLNode.mNumberOfMessages + 1
      modifiedCalls := w.mMRMLNode.modifiedCalls + 1 } }

/-- The method `AddToROS2Node`. -/
def AddToROS2Node {μ : Type} (w : ParameterWorld μ) (nodeId trackedNodeName : String)
    (errorMessage : String) : AddToROS2NodeResult μ :=
  match GetNodeByID w.scene nodeId with
  | none => { returned := false, errorMessage := "unable to locate node", world := w }
  | some (position, rosNodeBasePtr) =>
    if !rosNodeBasePtr.isROS2NODENode then
      { returned := false,
        errorMessage := rosNodeBasePtr.name ++ " doesn't seem to be a vtkMRMLROS2NODENode",
        world := w }
    else
      let nodePointer := rosNodeBasePtr.mNodePointer
      let param_subscriber_ : ParameterEventHandler := { node := nodePointer }
      let cb_handle : ParameterEventCallbackHandle :=
        { trackedNodeName := trackedNodeName, nodePointer := nodePointer }
      let scene := w.scene.modify
        (fun rosNodePtr => { rosNodePtr with
          references := SetNthNodeReferenceID rosNodePtr.references "parameter"
            (GetNumberOfNodeReferences rosNodePtr.references "parameter") w.mMRMLNode.id })
        position
      let mMRMLNode := { w.mMRMLNode with
        references := SetNodeReferenceID w.mMRMLNode.references "node" (some nodeId) }
      { returned := true, errorMessage := errorMessage,
        world :=
          { scene := scene, mMRMLNode := mMRMLNode,
            internals := { w.internals with
              param_subscriber_ := some param_subscriber_, cb_handle := some cb_handle } } }

/-- The method `IsAddedToROS2Node`. -/
def IsAddedToROS2Node {μ : Type} (internals : ParameterInternals μ) : Bool :=
  internals.mSubscription.isSome

/-- What can happen to the world between two observations: a call of
`ParameterCallback`, a call of `AddToROS2Node`, or a change of the scene and of
the parameter node made elsewhere. -/
inductive ParameterOp (μ : Type) where
  | parameterCallback (message : μ)
  | addToROS2Node (nodeId trackedNodeName errorMessage : String)
  | elsewhere (scene : List ParameterSceneNode) (mMRMLNode : ParameterNode)

/-- The world after one operation. -/
def applyParameterOp {μ : Type} (w : ParameterWorld μ) : ParameterOp μ → ParameterWorld μ
  | .parameterCallback message => ParameterCallback w message
  | .addToROS2Node nodeId trackedNodeName errorMessage =>
    (AddToROS2Node w nodeId trackedNodeName errorMessage).world
  | .elsewhere scene mMRMLNode => { w with scene := scene, mMRMLNode := mMRMLNode }

/-- The world right after the constructor of the internals, for a scene, a
parameter node and a default message. -/
def newParameterWorld {μ : Type} (scene : List ParameterSceneNode) (mMRMLNode : ParameterNode)
    (message : μ) : ParameterWorld μ :=
  { scene := scene, mMRMLNode := mMRMLNode, internals := newParameterInternals message }

/-- A model node of the scene, which is not a ROS2 node. -/
def exampleModelSceneNode : ParameterSceneNode :=
  { id := "vtkMRMLModelNode1", name := "base", isROS2NODENode := false,
    mNodePointer := none, references := fun _ => [] }

/-- A ROS2 node that already has one "parameter" reference. -/
def exampleROS2Node : ParameterSceneNode :=
  { id := "vtkMRMLROS2NODENode1", name := "ros2:node:slicer", isROS2NODENode := true,
    mNodePointer := some 1,
    references := fun role => if role = "parameter" then ["vtkMRMLROS2ParameterNode1"] else [] }

/-- A scene with a model node and a ROS2 node. -/
def exampleParameterScene : List ParameterSceneNode :=
  [exampleModelSceneNode, exampleROS2Node]

/-- A parameter node that is in the scene and has no reference yet. -/
def exampleParameterNode : ParameterNode :=
  { id := some "vtkMRMLROS2ParameterNode2", mNumberOfMessages := 0, modifiedCalls := 0,
    references := fun _ => [] }

/-- The world of the examples right after the constructor. -/
def exampleParameterWorld : ParameterWorld String :=
  newParameterWorld exampleParameterScene exampleParameterNode ""

/-- The environment `exampleEnv 0` with a chain of three segments. -/
def shortChainEnv : Env Nat :=
  { exampleEnv 0 with getChain := fun _ _ => some 3 }

/-! ## Lemmas on the scene operations and the two loops -/

theorem modify_append_left {α : Type} (f : α → α) (s t : List α) (i : Nat) (h : i < s.length) :
    (s ++ t).modify f i = s.modify f i ++ t := by
  induction s generalizing i with
  | nil => simp at h
  | cons a s ih =>
    cases i with
    | zero => simp
    | succ i => simp at h; simp [ih i h]

theorem modify_append_right {α : Type} (f : α → α) (s t : List α) (i : Nat) :
    (s ++ t).modify f (s.length + i) = s ++ t.modify f i := by
  induction s with
  | nil => simp
  | cons a s ih =>
    have : (a :: s).length + i = (s.length + i) + 1 := by simp; omega
    rw [this]
    simp [ih]

theorem GetFirstNodeByName_lt {s : Scene} {name : String} {i : Nat}
    (h : GetFirstNodeByName s name = some i) : i < s.length := by
  induction s generalizing i with
  | nil => simp [GetFirstNodeByName] at h
  | cons a s ih =>
    simp only [GetFirstNodeByName] at h
    split at h
    · simp at h; subst h; simp
    · simp at h
      obtain ⟨j, hj, rfl⟩ := h
      have := ih hj
      simp; omega

theorem GetFirstNodeByName_name {s : Scene} {name : String} {i : Nat}
    (h : GetFirstNodeByName s name = some i) : ∃ n, s[i]? = some n ∧ n.name = name := by
  induction s generalizing i with
  | nil => simp [GetFirstNodeByName] at h
  | cons a s ih =>
    simp only [GetFirstNodeByName] at h
    split at h
    · simp at h; subst h; exact ⟨a, by simp, by assumption⟩
    · simp at h
      obtain ⟨j, hj, rfl⟩ := h
      obtain ⟨n, hn, hname⟩ := ih hj
      exact ⟨n, by simpa using hn, hname⟩

theorem GetFirstNodeByName_append (s t : Scene) (name : String) :
    GetFirstNodeByName (s ++ t) name =
      match GetFirstNodeByName s name with
      | some i => some i
      | none => (GetFirstNodeByName t name).map (· + s.length) := by
  induction s with
  | nil => simp [GetFirstNodeByName]
  | cons a s ih =>
    by_cases ha : a.name = name
    · simp [GetFirstNodeByName, ha]
    · have hstep : GetFirstNodeByName (a :: s ++ t) name =
          (GetFirstNodeByName (s ++ t) name).map (· + 1) := by
        simp [GetFirstNodeByName, ha]
      rw [hstep, ih]
      cases hs : GetFirstNodeByName s name with
      | some i => simp [GetFirstNodeByName, ha, hs]
      | none =>
        cases ht : GetFirstNodeByName t name with
        | none => simp [GetFirstNodeByName, ha, hs]
        | some j => simp [GetFirstNodeByName, ha, hs]; omega

theorem GetFirstNodeByName_congr {s t : Scene} (name : String)
    (h : s.map Node.name = t.map Node.name) :
    GetFirstNodeByName s name = GetFirstNodeByName t name := by
  induction s generalizing t with
  | nil => cases t <;> simp_all [GetFirstNodeByName]
  | cons a s ih =>
    cases t with
    | nil => simp at h
    | cons b t =>
      simp at h
      simp [GetFirstNodeByName, h.1, ih h.2]

theorem map_modify_of_eq {α β : Type} (g : α → β) (f : α → α) (hf : ∀ a, g (f a) = g a)
    (s : List α) (i : Nat) : (s.modify f i).map g = s.map g := by
  induction s generalizing i with
  | nil => simp
  | cons a s ih => cases i <;> simp [hf, ih]

theorem copyFrameElements_eq (matrix : Mat4) (cartpos : Frame) :
    copyFrameElements matrix cartpos = cartpos := by
  ext i j
  fin_cases i <;> fin_cases j <;>
    simp [copyFrameElements, SetElement]

theorem fkNodeIteration_some (frames : List Frame) (st : Run) (l : Nat) (c : Frame)
    (hf : st.fault = none) (hc : frames[l]? = some c) :
    fkNodeIteration frames st l =
      { st with scene := st.scene ++ [newTransformStorageNode, fkNode st.scene.length l c] } := by
  simp [fkNodeIteration, hf, hc, AddNode, SetAndObserveStorageNodeID,
    SetMatrixTransformToParent, modify_append_right, copyFrameElements_eq, fkNode,
    newLinearTransformNode]

theorem fkNodeIteration_none (frames : List Frame) (st : Run) (l : Nat)
    (hc : frames[l]? = none) : (fkNodeIteration frames st l).fault ≠ none := by
  cases hf : st.fault <;> simp [fkNodeIteration, hf, hc]

theorem GetFirstNodeByName_eq_none {t : Scene} {name : String}
    (h : ∀ n ∈ t, n.name ≠ name) : GetFirstNodeByName t name = none := by
  induction t with
  | nil => rfl
  | cons a t ih =>
    have ha : a.name ≠ name := h a (by simp)
    have := ih (fun n hn => h n (by simp [hn]))
    simp [GetFirstNodeByName, ha, this]

theorem lookup_append (acc : NodeClass → Bool) (s t : Scene) (name : String)
    (ht : ∀ n ∈ t, n.name ≠ name) :
    SafeDownCast acc (s ++ t) (GetFirstNodeByName (s ++ t) name) =
      SafeDownCast acc s (GetFirstNodeByName s name) := by
  rw [GetFirstNodeByName_append, GetFirstNodeByName_eq_none ht]
  cases hs : GetFirstNodeByName s name with
  | none => simp [SafeDownCast]
  | some i =>
    have hlt := GetFirstNodeByName_lt hs
    simp [SafeDownCast, List.getElem?_append_left hlt]

theorem SafeDownCast_some {acc : NodeClass → Bool} {s : Scene} {name : String} {i : Nat}
    (h : SafeDownCast acc s (GetFirstNodeByName s name) = some i) :
    GetFirstNodeByName s name = some i ∧ i < s.length ∧
      ∃ n, s[i]? = some n ∧ n.name = name ∧ acc n.cls = true := by
  cases hs : GetFirstNodeByName s name with
  | none => simp [SafeDownCast, hs] at h
  | some j =>
    obtain ⟨n, hn, hname⟩ := GetFirstNodeByName_name hs
    have hlt := GetFirstNodeByName_lt hs
    simp only [SafeDownCast, hs, hn] at h
    split at h
    · simp at h; subst h; exact ⟨rfl, hlt, n, hn, hname, by assumption⟩
    · simp at h

theorem link_names_fresh {k : Nat} (hk : k < 7) :
    link_names.getD k "" ≠ "" ∧ link_names.getD k "" ≠ "InitialPosition" ∧
      link_names.getD k "" ≠ "LPSToRAS" := by
  interval_cases k <;> simp [link_names]

theorem link_names_FK_fresh {l : Nat} (hl : l < 6) :
    link_names_FK.getD l "" ≠ "" ∧ link_names_FK.getD l "" ≠ "InitialPosition" ∧
      link_names_FK.getD l "" ≠ "LPSToRAS" := by
  interval_cases l <;> simp [link_names_FK]

theorem link_names_ne_FK {k l : Nat} (hk : k < 7) (hl : l < 6) :
    link_names.getD k "" ≠ link_names_FK.getD l "" := by
  interval_cases k <;> interval_cases l <;> simp [link_names, link_names_FK]

theorem link_names_injective {k j : Nat} (hk : k < 7) (hj : j < 7)
    (h : link_names.getD k "" = link_names.getD j "") : k = j := by
  interval_cases k <;> interval_cases j <;> simp [link_names] at h ⊢

theorem placed_names_fresh {name : String} (h1 : name ≠ "") (h2 : name ≠ "InitialPosition")
    (h3 : name ≠ "LPSToRAS") (a b : Node) (ha : a.name = "InitialPosition")
    (hb : b.name = "LPSToRAS") :
    ∀ n ∈ [newTransformStorageNode, a, newTransformStorageNode, b], n.name ≠ name := by
  intro n hn
  simp only [List.mem_cons, List.mem_singleton, List.not_mem_nil, or_false] at hn
  rcases hn with rfl | rfl | rfl | rfl
  · exact fun h => h1 h.symm
  · exact fun h => h2 (h.symm.trans ha)
  · exact fun h => h1 h.symm
  · exact fun h => h3 (h.symm.trans hb)

theorem initialPositionIteration_success (st : Run) (k : Nat) (hk : k < 7)
    (hf : st.fault = none) (hok : (initialPositionIteration st k).fault = none) :
    ∃ m par, SafeDownCast NodeClass.isModel st.scene
        (GetFirstNodeByName st.scene (link_names.getD k "")) = some m ∧
      ((k = 0 ∧ par = none) ∨
        (1 ≤ k ∧ ∃ t, par = some t ∧ SafeDownCast NodeClass.isTransform st.scene
          (GetFirstNodeByName st.scene (link_names_FK.getD (k - 1) "")) = some t)) ∧
      initialPositionIteration st k =
        { st with scene := SetAndObserveTransformNodeID st.scene m (st.scene.length + 3) ++
            placedNodes st.scene.length k par } := by
  obtain ⟨h1, h2, h3⟩ := link_names_fresh hk
  by_cases hk0 : k = 0
  · simp only [initialPositionIteration, hf, AddNode, SetAndObserveStorageNodeID,
      ConcatenateToParent, SetMatrixTransformToParent, SetAndObserveTransformNodeID,
      List.append_assoc, List.cons_append, List.nil_append, List.length_append,
      List.length_cons, List.length_nil, modify_append_right, List.modify_succ_cons,
      List.modify_zero_cons, if_pos hk0] at hok ⊢
    generalize link_names.getD k "" = name at h1 h2 h3 hok ⊢
    rw [lookup_append _ _ _ _ (placed_names_fresh h1 h2 h3 _ _ rfl rfl)] at hok ⊢
    cases hm : SafeDownCast NodeClass.isModel st.scene (GetFirstNodeByName st.scene name) with
    | none => simp [hm] at hok
    | some m =>
      obtain ⟨-, hlt, -⟩ := SafeDownCast_some hm
      refine ⟨m, none, rfl, Or.inl ⟨hk0, rfl⟩, ?_⟩
      simp [modify_append_left _ _ _ _ hlt, placedNodes, initialPositionNode, lpsNode,
        newLinearTransformNode]
  · obtain ⟨g1, g2, g3⟩ := link_names_FK_fresh (show k - 1 < 6 by omega)
    simp only [initialPositionIteration, hf, AddNode, SetAndObserveStorageNodeID,
      ConcatenateToParent, SetMatrixTransformToParent, SetAndObserveTransformNodeID,
      List.append_assoc, List.cons_append, List.nil_append, List.length_append,
      List.length_cons, List.length_nil, modify_append_right, List.modify_succ_cons,
      List.modify_zero_cons, if_neg hk0] at hok ⊢
    generalize link_names.getD k "" = name at h1 h2 h3 hok ⊢
    generalize link_names_FK.getD (k - 1) "" = nameFK at g1 g2 g3 hok ⊢
    rw [lookup_append _ _ _ _ (placed_names_fresh g1 g2 g3 _ _ rfl rfl)] at hok ⊢
    cases ht : SafeDownCast NodeClass.isTransform st.scene
        (GetFirstNodeByName st.scene nameFK) with
    | none => simp [ht] at hok
    | some t =>
      simp only [ht] at hok ⊢
      rw [lookup_append _ _ _ _ (placed_names_fresh h1 h2 h3 _ _ rfl rfl)] at hok ⊢
      cases hm : SafeDownCast NodeClass.isModel st.scene
          (GetFirstNodeByName st.scene name) with
      | none => simp [hm] at hok
      | some m =>
        obtain ⟨-, hlt, -⟩ := SafeDownCast_some hm
        refine ⟨m, some t, rfl, Or.inr ⟨by omega, t, rfl, rfl⟩, ?_⟩
        simp [modify_append_left _ _ _ _ hlt, placedNodes, initialPositionNode, lpsNode,
          newLinearTransformNode]

theorem fkNodeIteration_fault (frames : List Frame) (st : Run) (l : Nat)
    (h : st.fault ≠ none) : fkNodeIteration frames st l = st := by
  cases hf : st.fault with
  | none => exact absurd hf h
  | some f => simp [fkNodeIteration, hf]

theorem initialPositionIteration_fault (st : Run) (k : Nat) (h : st.fault ≠ none) :
    initialPositionIteration st k = st := by
  cases hf : st.fault with
  | none => exact absurd hf h
  | some f => simp [initialPositionIteration, hf]

theorem fkLoop_fault (frames : List Frame) (ls : List Nat) (st : Run)
    (h : st.fault ≠ none) : ls.foldl (fkNodeIteration frames) st = st := by
  induction ls with
  | nil => rfl
  | cons l ls ih => simp [List.foldl, fkNodeIteration_fault frames st l h, ih]

theorem placementLoop_fault (ks : List Nat) (st : Run) (h : st.fault ≠ none) :
    ks.foldl initialPositionIteration st = st := by
  induction ks with
  | nil => rfl
  | cons k ks ih => simp [List.foldl, initialPositionIteration_fault st k h, ih]

/-- The loop over the frames, when no fault stops it, appends one storage node
and one forward-kinematics node per turn and touches nothing else. -/
theorem fkLoop_success (frames : List Frame) (ls : List Nat) (st : Run)
    (hf : st.fault = none) (hok : (ls.foldl (fkNodeIteration frames) st).fault = none) :
    (∀ l ∈ ls, l < frames.length) ∧
      ls.foldl (fkNodeIteration frames) st =
        { st with scene := st.scene ++ fkNodes frames st.scene.length ls } := by
  induction ls generalizing st with
  | nil => simp [fkNodes]
  | cons l ls ih =>
    simp only [List.foldl] at hok ⊢
    cases hc : frames[l]? with
    | none =>
      have hne := fkNodeIteration_none frames st l hc
      rw [fkLoop_fault frames ls _ hne] at hok
      exact absurd hok hne
    | some c =>
      have hstep := fkNodeIteration_some frames st l c hf hc
      rw [hstep] at hok ⊢
      obtain ⟨hall, heq⟩ := ih
        { st with scene := st.scene ++ [newTransformStorageNode, fkNode st.scene.length l c] }
        hf hok
      have hl : l < frames.length := by
        by_contra hcon
        rw [List.getElem?_eq_none (by omega)] at hc
        exact Option.noConfusion hc
      refine ⟨?_, ?_⟩
      · intro x hx
        rcases List.mem_cons.mp hx with rfl | hx
        · exact hl
        · exact hall x hx
      · rw [heq]
        simp [fkNodes, List.getD_eq_getElem?_getD, hc]

/-- An invariant of the scene kept by every turn that does not fault is kept
by the whole placement loop when it does not fault. -/
theorem placementLoop_induct (P : Scene → Prop) (ks : List Nat)
    (hstep : ∀ st k, k ∈ ks → st.fault = none →
      (initialPositionIteration st k).fault = none →
      P st.scene → P (initialPositionIteration st k).scene)
    (st : Run) (hf : st.fault = none)
    (hok : (ks.foldl initialPositionIteration st).fault = none) (h0 : P st.scene) :
    P (ks.foldl initialPositionIteration st).scene := by
  induction ks generalizing st with
  | nil => exact h0
  | cons k ks ih =>
    simp only [List.foldl] at hok ⊢
    have hk : (initialPositionIteration st k).fault = none := by
      by_contra hne
      rw [placementLoop_fault ks _ hne] at hok
      exact hne hok
    exact ih (fun st j hj => hstep st j (List.mem_cons_of_mem _ hj)) _ hk hok
      (hstep st k (List.mem_cons_self _ _) hf hk h0)

theorem placementLoop_initial_fault (pre post : List Nat) (st : Run)
    (hok : ((pre ++ post).foldl initialPositionIteration st).fault = none) :
    (pre.foldl initialPositionIteration st).fault = none := by
  by_contra hne
  rw [List.foldl_append, placementLoop_fault post _ hne] at hok
  exact hne hok

theorem SetAndObserveTransformNodeID_length (s : Scene) (m p : Nat) :
    (SetAndObserveTransformNodeID s m p).length = s.length := by
  simp [SetAndObserveTransformNodeID]

theorem SetAndObserveTransformNodeID_names (s : Scene) (m p : Nat) :
    (SetAndObserveTransformNodeID s m p).map Node.name = s.map Node.name := by
  unfold SetAndObserveTransformNodeID
  apply map_modify_of_eq
  intro a
  rfl

theorem SetAndObserveTransformNodeID_classes (s : Scene) (m p : Nat) :
    (SetAndObserveTransformNodeID s m p).map Node.cls = s.map Node.cls := by
  unfold SetAndObserveTransformNodeID
  apply map_modify_of_eq
  intro a
  rfl

/-- A turn of the placement loop leaves alone every node that was in the scene
and is not named after the link of the turn. -/
theorem step_frame (s t : Scene) (m p i : Nat) (n x : Node) (hm : s[m]? = some x)
    (hi : s[i]? = some n) (hne : n.name ≠ x.name) :
    (SetAndObserveTransformNodeID s m p ++ t)[i]? = some n := by
  have hlt : i < s.length := by
    by_contra hcon
    rw [List.getElem?_eq_none (by omega)] at hi
    exact Option.noConfusion hi
  have him : m ≠ i := by
    rintro rfl
    rw [hm] at hi
    cases hi
    exact hne rfl
  rw [List.getElem?_append_left (by rw [SetAndObserveTransformNodeID_length]; exact hlt)]
  simp [SetAndObserveTransformNodeID, List.getElem?_modify_ne _ _ him, hi]

theorem step_lookup (s t : Scene) (m p i : Nat) (name : String)
    (h : GetFirstNodeByName s name = some i) :
    GetFirstNodeByName (SetAndObserveTransformNodeID s m p ++ t) name = some i := by
  rw [GetFirstNodeByName_append,
    GetFirstNodeByName_congr name (SetAndObserveTransformNodeID_names s m p), h]

theorem step_target (s t : Scene) (m p : Nat) (x : Node) (hm : s[m]? = some x) :
    (SetAndObserveTransformNodeID s m p ++ t)[m]? =
      some { x with transformNodeID := some p } := by
  have hlt : m < s.length := by
    by_contra hcon
    rw [List.getElem?_eq_none (by omega)] at hm
    exact Option.noConfusion hm
  rw [List.getElem?_append_left (by rw [SetAndObserveTransformNodeID_length]; exact hlt)]
  simp [SetAndObserveTransformNodeID, hm]

theorem step_new (s t : Scene) (m p j : Nat) :
    (SetAndObserveTransformNodeID s m p ++ t)[s.length + j]? = t[j]? := by
  rw [List.getElem?_append_right (by rw [SetAndObserveTransformNodeID_length]; omega)]
  simp [SetAndObserveTransformNodeID_length]

theorem isModel_eq {c : NodeClass} (h : c.isModel = true) : c = NodeClass.model := by
  cases c <;> simp [NodeClass.isModel] at h ⊢

/-- A turn of the placement loop that does not fault wires its link. -/
theorem initialPositionIteration_wires (st : Run) (k : Nat) (hk : k < 7)
    (hf : st.fault = none) (hok : (initialPositionIteration st k).fault = none) :
    LinkWired (initialPositionIteration st k).scene k := by
  obtain ⟨m, par, hm, hpar, heq⟩ := initialPositionIteration_success st k hk hf hok
  obtain ⟨hgm, -, model, hmodel, hmname, hmcls⟩ := SafeDownCast_some hm
  rw [heq]
  refine ⟨m, st.scene.length + 3, st.scene.length + 1,
    { model with transformNodeID := some (st.scene.length + 3) },
    lpsNode (st.scene.length + 2) (st.scene.length + 1),
    initialPositionNode st.scene.length k par,
    step_lookup _ _ _ _ _ _ hgm, step_target _ _ _ _ _ hmodel, isModel_eq hmcls, rfl,
    ?_, rfl, rfl, rfl, rfl, rfl, ?_, rfl, rfl, rfl, ?_, ?_⟩
  · rw [step_new]; simp [placedNodes]
  · rw [step_new]; simp [placedNodes]
  · intro hk0
    rcases hpar with ⟨-, rfl⟩ | ⟨h1, -⟩
    · rfl
    · omega
  · intro hk1
    rcases hpar with ⟨h0, -⟩ | ⟨-, t, rfl, ht⟩
    · omega
    · obtain ⟨hgt, -, fk, hfk, hfkname, hfkcls⟩ := SafeDownCast_some ht
      refine ⟨t, fk, rfl, step_lookup _ _ _ _ _ _ hgt, ?_, hfkcls⟩
      refine step_frame _ _ _ _ _ _ _ hmodel hfk ?_
      rw [hfkname, hmname]
      exact (link_names_ne_FK hk (by omega)).symm

/-- A turn of the placement loop that does not fault keeps the wiring of every
other link. -/
theorem initialPositionIteration_keeps (st : Run) (k j : Nat) (hk : k < 7) (hj : j < 7)
    (hjk : j ≠ k) (hf : st.fault = none)
    (hok : (initialPositionIteration st k).fault = none) (hw : LinkWired st.scene j) :
    LinkWired (initialPositionIteration st k).scene j := by
  obtain ⟨m, par, hm, -, heq⟩ := initialPositionIteration_success st k hk hf hok
  obtain ⟨-, -, target, htarget, htname, -⟩ := SafeDownCast_some hm
  obtain ⟨mj, c, p, model, correction, initial, hgj, hmodel, hmcls, hmpar, hc, hccls,
    hcname, hcmat, hcops, hcpar, hp, hpcls, hpname, hptp, hp0, hp1⟩ := hw
  obtain ⟨f1, f2, f3⟩ := link_names_fresh hk
  rw [heq]
  refine ⟨mj, c, p, model, correction, initial, step_lookup _ _ _ _ _ _ hgj,
    step_frame _ _ _ _ _ _ _ htarget hmodel ?_, hmcls, hmpar,
    step_frame _ _ _ _ _ _ _ htarget hc ?_, hccls, hcname, hcmat, hcops, hcpar,
    step_frame _ _ _ _ _ _ _ htarget hp ?_, hpcls, hpname, hptp, hp0, ?_⟩
  · rw [htname]
    obtain ⟨n, hn, hnname⟩ := GetFirstNodeByName_name hgj
    rw [hmodel] at hn
    cases hn
    rw [hnname]
    exact fun h => hjk (link_names_injective hj hk h)
  · rw [hcname, htname]; exact f3.symm
  · rw [hpname, htname]; exact f2.symm
  · intro hj1
    obtain ⟨f, fk, hf1, hgf, hfk, hfkcls⟩ := hp1 hj1
    refine ⟨f, fk, hf1, step_lookup _ _ _ _ _ _ hgf, ?_, hfkcls⟩
    refine step_frame _ _ _ _ _ _ _ htarget hfk ?_
    obtain ⟨n, hn, hnname⟩ := GetFirstNodeByName_name hgf
    rw [hfk] at hn
    cases hn
    rw [hnname, htname]
    exact (link_names_ne_FK hk (by omega)).symm

theorem initialPositionIteration_frame (st : Run) (k i : Nat) (n : Node) (hk : k < 7)
    (hf : st.fault = none) (hok : (initialPositionIteration st k).fault = none)
    (hi : st.scene[i]? = some n) (hne : n.name ≠ link_names.getD k "") :
    (initialPositionIteration st k).scene[i]? = some n := by
  obtain ⟨m, par, hm, -, heq⟩ := initialPositionIteration_success st k hk hf hok
  obtain ⟨-, -, target, htarget, htname, -⟩ := SafeDownCast_some hm
  rw [heq]
  exact step_frame _ _ _ _ _ _ _ htarget hi (by rw [htname]; exact hne)

theorem countP_modify_of_eq {α : Type} (p : α → Bool) (f : α → α) (hf : ∀ a, p (f a) = p a)
    (s : List α) (i : Nat) : (s.modify f i).countP p = s.countP p := by
  induction s generalizing i with
  | nil => simp
  | cons a s ih => cases i <;> simp [List.countP_cons, hf, ih]

/-- A count that does not look at parent references grows, over a turn of the
placement loop, by what the four new nodes contribute. -/
theorem initialPositionIteration_count (p : Node → Bool)
    (hp : ∀ n par, p { n with transformNodeID := some par } = p n)
    (st : Run) (k : Nat) (hk : k < 7) (hf : st.fault = none)
    (hok : (initialPositionIteration st k).fault = none) :
    ∃ par, (initialPositionIteration st k).scene.countP p =
      st.scene.countP p + (placedNodes st.scene.length k par).countP p := by
  obtain ⟨m, par, -, -, heq⟩ := initialPositionIteration_success st k hk hf hok
  refine ⟨par, ?_⟩
  rw [heq]
  simp only [List.countP_append, SetAndObserveTransformNodeID]
  rw [countP_modify_of_eq p _ (fun a => hp a _)]

theorem placementLoop_count (p : Node → Bool) (c : Nat)
    (hp : ∀ n par, p { n with transformNodeID := some par } = p n)
    (hc : ∀ base k par, (placedNodes base k par).countP p = c)
    (ks : List Nat) (hks : ∀ k ∈ ks, k < 7) (st : Run) (hf : st.fault = none)
    (hok : (ks.foldl initialPositionIteration st).fault = none) :
    (ks.foldl initialPositionIteration st).scene.countP p =
      st.scene.countP p + ks.length * c := by
  induction ks generalizing st with
  | nil => simp
  | cons k ks ih =>
    simp only [List.foldl] at hok ⊢
    have hk : (initialPositionIteration st k).fault = none := by
      by_contra hne
      rw [placementLoop_fault ks _ hne] at hok
      exact hne hok
    obtain ⟨par, hcount⟩ :=
      initialPositionIteration_count p hp st k (hks k (List.mem_cons_self _ _)) hf hk
    rw [ih (fun j hj => hks j (List.mem_cons_of_mem _ hj)) _ hk hok, hcount, hc]
    simp [Nat.add_mul]
    omega

/-- The state between the two loops of a synchronisation that does not fault. -/
theorem synchronize_split (frames : List Frame) (st : Run) (hf : st.fault = none)
    (hok : (synchronize frames st).fault = none) :
    (∀ l, l < 6 → l < frames.length) ∧
      synchronize frames st = (List.range 7).foldl initialPositionIteration
        { st with scene := st.scene ++ fkNodes frames st.scene.length (List.range 6) } := by
  have h1 : ((List.range 6).foldl (fkNodeIteration frames) st).fault = none := by
    by_contra hne
    unfold synchronize at hok
    rw [placementLoop_fault _ _ hne] at hok
    exact hne hok
  obtain ⟨hall, heq⟩ := fkLoop_success frames (List.range 6) st hf h1
  refine ⟨fun l hl => hall l (List.mem_range.mpr hl), ?_⟩
  unfold synchronize
  rw [heq]

theorem synchronize_count (p : Node → Bool) (c : Nat)
    (hp : ∀ n par, p { n with transformNodeID := some par } = p n)
    (hc : ∀ base k par, (placedNodes base k par).countP p = c)
    (frames : List Frame) (st : Run) (hf : st.fault = none)
    (hok : (synchronize frames st).fault = none) :
    (synchronize frames st).scene.countP p =
      st.scene.countP p +
        (fkNodes frames st.scene.length (List.range 6)).countP p + 7 * c := by
  obtain ⟨-, heq⟩ := synchronize_split frames st hf hok
  rw [heq] at hok ⊢
  rw [placementLoop_count p c hp hc (List.range 7) (fun k hk => List.mem_range.mp hk)
    { st with scene := st.scene ++ fkNodes frames st.scene.length (List.range 6) } hf hok]
  simp [List.countP_append]

theorem range6 : List.range 6 = [0, 1, 2, 3, 4, 5] := by decide

theorem range7 : List.range 7 = [0, 1, 2, 3, 4, 5, 6] := by decide

theorem synchronize_length (frames : List Frame) (st : Run) (hf : st.fault = none)
    (hok : (synchronize frames st).fault = none) :
    (synchronize frames st).scene.length = st.scene.length + 40 := by
  have h := synchronize_count (fun _ => true) 4 (fun _ _ => rfl)
    (fun _ _ _ => by simp [placedNodes]) frames st hf hok
  simp [range6, fkNodes] at h
  omega

theorem synchronize_transformCount (frames : List Frame) (st : Run) (hf : st.fault = none)
    (hok : (synchronize frames st).fault = none) :
    transformCount (synchronize frames st).scene = transformCount st.scene + 20 := by
  have h := synchronize_count (fun n => n.cls.isTransform) 2 (fun _ _ => rfl)
    (fun _ _ _ => by
      simp [placedNodes, newTransformStorageNode, initialPositionNode, lpsNode,
        NodeClass.isTransform, List.countP_cons])
    frames st hf hok
  have hfk : (fkNodes frames st.scene.length (List.range 6)).countP
      (fun n => n.cls.isTransform) = 6 := by
    simp [range6, fkNodes, fkNode, newTransformStorageNode, NodeClass.isTransform,
      List.countP_cons]
  rw [hfk] at h
  unfold transformCount
  omega

theorem synchronize_namedCount (name : String) (hname : name ∉ link_names_FK)
    (frames : List Frame) (st : Run) (hf : st.fault = none)
    (hok : (synchronize frames st).fault = none) :
    namedTransformCount name (synchronize frames st).scene =
      namedTransformCount name st.scene +
        7 * ((if name = "InitialPosition" then 1 else 0) +
          (if name = "LPSToRAS" then 1 else 0)) := by
  have h := synchronize_count (fun n => n.cls.isTransform && n.name == name)
    ((if name = "InitialPosition" then 1 else 0) + (if name = "LPSToRAS" then 1 else 0))
    (fun _ _ => rfl)
    (fun _ _ _ => by
      simp only [placedNodes, newTransformStorageNode, initialPositionNode, lpsNode,
        NodeClass.isTransform, List.countP_cons, List.countP_nil, Bool.false_and,
        Bool.true_and, beq_iff_eq, Bool.false_eq_true, if_false, Nat.zero_add, Nat.add_zero]
      simp only [@eq_comm _ "LPSToRAS" name, @eq_comm _ "InitialPosition" name]
      omega)
    frames st hf hok
  have hfk : (fkNodes frames st.scene.length (List.range 6)).countP
      (fun n => n.cls.isTransform && n.name == name) = 0 := by
    simp only [link_names_FK, List.mem_cons, List.mem_singleton, List.not_mem_nil, or_false,
      not_or] at hname
    obtain ⟨n0, n1, n2, n3, n4, n5⟩ := hname
    simp [range6, fkNodes, fkNode, newTransformStorageNode, NodeClass.isTransform,
      List.countP_cons, link_names_FK, Ne.symm n0, Ne.symm n1, Ne.symm n2, Ne.symm n3,
      Ne.symm n4, Ne.symm n5]
  rw [hfk] at h
  unfold namedTransformCount
  omega

/-- In a placement loop that does not fault, the link of a turn is still wired
after the last turn when no later turn is for the same link. -/
theorem placementLoop_wires (pre post : List Nat) (k : Nat) (hk : k < 7)
    (hpost : ∀ j ∈ post, j < 7 ∧ j ≠ k) (st : Run)
    (hok : ((pre ++ k :: post).foldl initialPositionIteration st).fault = none) :
    LinkWired ((pre ++ k :: post).foldl initialPositionIteration st).scene k := by
  have h1 : (pre.foldl initialPositionIteration st).fault = none :=
    placementLoop_initial_fault pre (k :: post) st hok
  have h2 : ((pre ++ [k]).foldl initialPositionIteration st).fault = none := by
    apply placementLoop_initial_fault (pre ++ [k]) post st
    simpa using hok
  rw [List.foldl_append] at h2 hok ⊢
  simp only [List.foldl] at h2 hok ⊢
  have hw := initialPositionIteration_wires _ k hk h1 h2
  exact placementLoop_induct (fun s => LinkWired s k) post
    (fun st j hj hfj hokj hwj =>
      initialPositionIteration_keeps st j k (hpost j hj).1 hk (hpost j hj).2.symm hfj hokj hwj)
    _ h2 hok hw

/-- After a synchronisation that does not fault every link is wired. -/
theorem synchronize_wired (frames : List Frame) (st : Run) (hf : st.fault = none)
    (hok : (synchronize frames st).fault = none) (k : Nat) (hk : k < 7) :
    LinkWired (synchronize frames st).scene k := by
  obtain ⟨-, heq⟩ := synchronize_split frames st hf hok
  rw [heq] at hok ⊢
  rw [range7] at hok ⊢
  interval_cases k
  · exact placementLoop_wires [] [1, 2, 3, 4, 5, 6] 0 (by omega) (by decide) _ hok
  · exact placementLoop_wires [0] [2, 3, 4, 5, 6] 1 (by omega) (by decide) _ hok
  · exact placementLoop_wires [0, 1] [3, 4, 5, 6] 2 (by omega) (by decide) _ hok
  · exact placementLoop_wires [0, 1, 2] [4, 5, 6] 3 (by omega) (by decide) _ hok
  · exact placementLoop_wires [0, 1, 2, 3] [5, 6] 4 (by omega) (by decide) _ hok
  · exact placementLoop_wires [0, 1, 2, 3, 4] [6] 5 (by omega) (by decide) _ hok
  · exact placementLoop_wires [0, 1, 2, 3, 4, 5] [] 6 (by omega) (by decide) _ hok

theorem fkNodes_getElem? (frames : List Frame) (base l : Nat) (hl : l < 6) :
    (fkNodes frames base (List.range 6))[2 * l + 1]? =
      some (fkNode (base + 2 * l) l (frames.getD l 1)) := by
  rw [range6]
  interval_cases l <;> simp [fkNodes]

/-- After a synchronisation that does not fault, the node created for frame `l`
is as the loop over the frames left it. -/
theorem synchronize_fkNode (frames : List Frame) (st : Run) (hf : st.fault = none)
    (hok : (synchronize frames st).fault = none) (l : Nat) (hl : l < 6) :
    ∃ cartpos, frames[l]? = some cartpos ∧
      (synchronize frames st).scene[st.scene.length + (2 * l + 1)]? =
        some (fkNode (st.scene.length + 2 * l) l cartpos) := by
  obtain ⟨hlen, heq⟩ := synchronize_split frames st hf hok
  have hl2 := hlen l hl
  refine ⟨frames[l], List.getElem?_eq_getElem hl2, ?_⟩
  rw [heq] at hok ⊢
  refine placementLoop_induct
    (fun s => s[st.scene.length + (2 * l + 1)]? =
      some (fkNode (st.scene.length + 2 * l) l frames[l]))
    (List.range 7) ?_ _ hf hok ?_
  · intro st2 k hk hf2 hok2 h
    refine initialPositionIteration_frame st2 k _ _ (List.mem_range.mp hk) hf2 hok2 h ?_
    exact (link_names_ne_FK (List.mem_range.mp hk) hl).symm
  · show (st.scene ++ fkNodes frames st.scene.length (List.range 6))[
        st.scene.length + (2 * l + 1)]? = _
    rw [List.getElem?_append_right (by omega)]
    simp only [Nat.add_sub_cancel_left]
    rw [fkNodes_getElem? frames _ l hl]
    simp [List.getD_eq_getElem?_getD, List.getElem?_eq_getElem hl2]

theorem getElem?_append_cases {α : Type} (s t : List α) (i : Nat) (n : α)
    (h : (s ++ t)[i]? = some n) : s[i]? = some n ∨ n ∈ t := by
  by_cases hi : i < s.length
  · rw [List.getElem?_append_left hi] at h
    exact Or.inl h
  · rw [List.getElem?_append_right (by omega)] at h
    exact Or.inr (List.getElem?_mem h)

theorem link_names_not_FK {k : Nat} (hk : k < 7) : link_names.getD k "" ∉ link_names_FK := by
  interval_cases k <;> simp [link_names, link_names_FK]

theorem link_names_FK_mem {l : Nat} (hl : l < 6) : link_names_FK.getD l "" ∈ link_names_FK := by
  interval_cases l <;> simp [link_names_FK]

theorem FKNodesUnparented_append (s t : Scene) (hs : FKNodesUnparented s)
    (ht : ∀ n ∈ t, n.transformNodeID = none) : FKNodesUnparented (s ++ t) := by
  intro i n hi hname
  rcases getElem?_append_cases s t i n hi with h | h
  · exact hs i n h hname
  · exact ht n h

theorem fkNodes_unparented (frames : List Frame) (base : Nat) (ls : List Nat) :
    ∀ n ∈ fkNodes frames base ls, n.transformNodeID = none := by
  induction ls generalizing base with
  | nil => simp [fkNodes]
  | cons l ls ih =>
    intro n hn
    simp only [fkNodes, List.mem_cons] at hn
    rcases hn with rfl | rfl | hn
    · rfl
    · rfl
    · exact ih _ n hn

theorem initialPositionIteration_unparented (st : Run) (k : Nat) (hk : k < 7)
    (hf : st.fault = none) (hok : (initialPositionIteration st k).fault = none)
    (hs : FKNodesUnparented st.scene) :
    FKNodesUnparented (initialPositionIteration st k).scene := by
  obtain ⟨m, par, hm, -, heq⟩ := initialPositionIteration_success st k hk hf hok
  obtain ⟨-, -, target, htarget, htname, -⟩ := SafeDownCast_some hm
  rw [heq]
  intro i n hi hname
  rcases getElem?_append_cases _ _ i n hi with h | h
  · simp only [SetAndObserveTransformNodeID, List.getElem?_modify] at h
    cases hsi : st.scene[i]? with
    | none => simp [hsi] at h
    | some x =>
      simp only [hsi, Option.map_eq_map, Option.map_some', Option.some.injEq] at h
      by_cases hmi : m = i
      · subst hmi
        rw [htarget] at hsi
        cases hsi
        simp only [if_true] at h
        subst h
        exact absurd (htname ▸ hname) (link_names_not_FK hk)
      · simp only [if_neg hmi] at h
        subst h
        exact hs i _ hsi hname
  · simp only [placedNodes, List.mem_cons, List.mem_singleton, List.not_mem_nil,
      or_false] at h
    rcases h with rfl | rfl | rfl | rfl
    · rfl
    · simp [initialPositionNode, link_names_FK] at hname
    · rfl
    · simp [lpsNode, link_names_FK] at hname

theorem synchronize_unparented (frames : List Frame) (st : Run) (hf : st.fault = none)
    (hok : (synchronize frames st).fault = none) (hs : FKNodesUnparented st.scene) :
    FKNodesUnparented (synchronize frames st).scene := by
  obtain ⟨-, heq⟩ := synchronize_split frames st hf hok
  rw [heq] at hok ⊢
  exact placementLoop_induct FKNodesUnparented (List.range 7)
    (fun st2 k hk hf2 hok2 h =>
      initialPositionIteration_unparented st2 k (List.mem_range.mp hk) hf2 hok2 h)
    _ hf hok (FKNodesUnparented_append _ _ hs (fkNodes_unparented _ _ _))

/-- A run that completes is the synchronisation of the solved frames, started
on the scene the script left. -/
theorem loadRobotSTLModels_eq {χ : Type} (env : Env χ) (scene : Scene) (kdl_chain : χ)
    (h : Completes env scene kdl_chain) :
    ∃ log, loadRobotSTLModels env scene =
      synchronize (solvedFrames env kdl_chain)
        { scene := sceneForSync env scene, log := log, fault := none } := by
  obtain ⟨⟨home, hhome, hinit⟩, htree, hchain, -⟩ := h
  simp only [loadRobotSTLModels, hhome, hinit, htree, hchain, Bool.not_true,
    Bool.false_eq_true, if_false, sceneForSync, solvedFrames]
  exact ⟨_, rfl⟩

/-! ## Lemmas on the solver of the specification -/

theorem motion_zero (t : Trig) (hc : t.cos 0 = 1) (hs : t.sin 0 = 0) (j : Joint) :
    motion t j 0 = 1 := by
  unfold motion
  cases j.type
  · rfl
  · ext a b
    fin_cases a <;> fin_cases b <;>
      simp [rotationAbout, hc, hs, Matrix.vecHead, Matrix.vecTail]
  · ext a b
    fin_cases a <;> fin_cases b <;>
      simp [translationAlong, Matrix.vecHead, Matrix.vecTail]

theorem solveFrom_zero (t : Trig) (hc : t.cos 0 = 1) (hs : t.sin 0 = 0) (chain : Chain)
    (running : Mat4) :
    solveFrom t running chain (List.replicate chain.length 0) =
      accumulatedOffsets running chain := by
  induction chain generalizing running with
  | nil => rfl
  | cons j js ih =>
    simp only [List.length_cons, List.replicate_succ, solveFrom, accumulatedOffsets,
      motion_zero t hc hs, mul_one, ih]

theorem solveFrom_length (t : Trig) (chain : Chain) (cfg : List ℚ) (running : Mat4)
    (h : cfg.length = chain.length) : (solveFrom t running chain cfg).length = chain.length := by
  induction chain generalizing running cfg with
  | nil => rfl
  | cons j js ih =>
    cases cfg with
    | nil => simp at h
    | cons q qs =>
      simp only [List.length_cons, Nat.add_right_cancel_iff] at h
      simp [solveFrom, ih qs _ h]

theorem jointPositionStep_length (acc : List ℚ × List LogEntry) (q : Nat) :
    (jointPositionStep acc q).1.length = acc.1.length := by
  unfold jointPositionStep
  by_cases h : q = 1 <;> simp [h]

theorem jointPositionLoop_length (nj : Nat) : (jointPositionLoop nj).1.length = nj := by
  unfold jointPositionLoop
  have key : ∀ (qs : List Nat) (acc : List ℚ × List LogEntry),
      (qs.foldl jointPositionStep acc).1.length = acc.1.length := by
    intro qs
    induction qs with
    | nil => intro acc; rfl
    | cons q qs ih => intro acc; simp [List.foldl, ih, jointPositionStep_length]
  rw [key]
  simp

/-! ## Lemmas on the example inputs and on whole runs -/

theorem exampleEnv_run (status : Int) :
    (loadRobotSTLModels (exampleEnv status) exampleScene).fault = none ∧
      (loadRobotSTLModels (exampleEnv status) exampleScene).scene.length = 47 := by
  simp [loadRobotSTLModels, exampleEnv, synchronize, range6, range7,
    initialPositionIteration, fkNodeIteration, AddNode, exampleScene, link_names,
    link_names_FK, exampleModel, GetFirstNodeByName, SafeDownCast,
    SetAndObserveTransformNodeID, SetAndObserveStorageNodeID, SetMatrixTransformToParent,
    ConcatenateToParent, initialFrames, jointPositionLoop, newLinearTransformNode,
    newTransformStorageNode, NodeClass.isModel, NodeClass.isTransform]

theorem exampleEnv_completes (status : Int) :
    Completes (exampleEnv status) exampleScene 6 :=
  ⟨⟨"/home/user", rfl, rfl⟩, rfl, rfl, (exampleEnv_run status).1⟩

theorem exampleScene_unparented : FKNodesUnparented (sceneForSync (exampleEnv 0) exampleScene) := by
  intro i n hi hname
  have hmem : n ∈ exampleScene := List.getElem?_mem hi
  simp only [exampleScene, link_names, List.map_cons, List.map_nil, List.mem_cons,
    List.mem_singleton, List.not_mem_nil, or_false] at hmem
  rcases hmem with rfl | rfl | rfl | rfl | rfl | rfl | rfl <;> rfl

/-- Whatever the scene, the run of a completing environment synchronises
without a fault. -/
theorem completes_sync {χ : Type} (env : Env χ) (scene : Scene) (kdl_chain : χ)
    (h : Completes env scene kdl_chain) :
    ∃ log, loadRobotSTLModels env scene =
        synchronize (solvedFrames env kdl_chain)
          { scene := sceneForSync env scene, log := log, fault := none } ∧
      (synchronize (solvedFrames env kdl_chain)
          { scene := sceneForSync env scene, log := log, fault := none }).fault = none := by
  obtain ⟨log, heq⟩ := loadRobotSTLModels_eq env scene kdl_chain h
  exact ⟨log, heq, heq ▸ h.2.2.2⟩

theorem one_ne_LPSToRAS_matrix : (1 : Mat4) ≠ LPSToRAS_matrix := by
  intro h
  have h00 := congrFun (congrFun h 0) 0
  simp [LPSToRAS_matrix, SetElement] at h00
  norm_num at h00

theorem exampleEnv_second_run :
    (loadRobotSTLModels (exampleEnv 0)
      (loadRobotSTLModels (exampleEnv 0) exampleScene).scene).fault = none := by
  simp [loadRobotSTLModels, exampleEnv, synchronize, range6, range7,
    initialPositionIteration, fkNodeIteration, AddNode, exampleScene, link_names,
    link_names_FK, exampleModel, GetFirstNodeByName, SafeDownCast,
    SetAndObserveTransformNodeID, SetAndObserveStorageNodeID, SetMatrixTransformToParent,
    ConcatenateToParent, initialFrames, jointPositionLoop, newLinearTransformNode,
    newTransformStorageNode, NodeClass.isModel, NodeClass.isTransform]

/-- The parent path of the model of a wired link, in a scene whose
forward-kinematics nodes have no parent, meets exactly one correction node,
and that node holds the correction matrix. -/
theorem parentPath_single_correction (scene : Scene) (k : Nat) (hk : k < 7) (fuel : Nat)
    (hfuel : 4 ≤ fuel) (hw : LinkWired scene k) (hu : FKNodesUnparented scene) :
    ∃ m c correction, GetFirstNodeByName scene (link_names.getD k "") = some m ∧
      (parentPath scene fuel m).filter (isCorrectionNode scene) = [c] ∧
      scene[c]? = some correction ∧ correction.toParent.matrix = LPSToRAS_matrix ∧
      correction.toParent.ops = [] := by
  obtain ⟨m, c, p, model, correction, initial, hgm, hmodel, hmcls, hmpar, hc, hccls,
    hcname, hcmat, hcops, hcpar, hp, hpcls, hpname, -, hp0, hp1⟩ := hw
  obtain ⟨fuel, rfl⟩ : ∃ f, fuel = f + 4 := ⟨fuel - 4, by omega⟩
  have hcc : isCorrectionNode scene c = true := by
    simp [isCorrectionNode, hc, hccls, hcname, NodeClass.isTransform]
  have hpc : isCorrectionNode scene p = false := by
    simp [isCorrectionNode, hp, hpname]
  refine ⟨m, c, correction, hgm, ?_, hc, hcmat, hcops⟩
  rcases Nat.eq_zero_or_pos k with h0 | h1
  · simp [parentPath, hmodel, hmpar, hc, hcpar, hp, hp0 h0, List.filter, hcc, hpc]
  · obtain ⟨f, fk, hpf, hgf, hfk, hfkcls⟩ := hp1 h1
    obtain ⟨n, hn, hnname⟩ := GetFirstNodeByName_name hgf
    rw [hfk] at hn
    cases hn
    have hlt : k - 1 < 6 := by omega
    have hfpar : fk.transformNodeID = none :=
      hu f fk hfk (hnname ▸ link_names_FK_mem hlt)
    have hfname : fk.name ≠ "LPSToRAS" := by
      rw [hnname]
      exact (link_names_FK_fresh hlt).2.2
    have hfc : isCorrectionNode scene f = false := by
      simp [isCorrectionNode, hfk, hfname]
    simp [parentPath, hmodel, hmpar, hc, hcpar, hp, hpf, hfk, hfpar, List.filter, hcc,
      hpc, hfc]

/-! ## Lemmas on the parameter internals -/

theorem GetNodeByID_some {scene : List ParameterSceneNode} {id : String} {position : Nat}
    {node : ParameterSceneNode} (h : GetNodeByID scene id = some (position, node)) :
    scene[position]? = some node ∧ node.id = id := by
  induction scene generalizing position with
  | nil => simp [GetNodeByID] at h
  | cons a rest ih =>
    simp only [GetNodeByID] at h
    split at h
    · simp only [Option.some.injEq, Prod.mk.injEq] at h
      obtain ⟨rfl, rfl⟩ := h
      exact ⟨by simp, by assumption⟩
    · simp only [Option.map_eq_some'] at h
      obtain ⟨found, hfound, hpair⟩ := h
      simp only [Prod.mk.injEq] at hpair
      obtain ⟨rfl, rfl⟩ := hpair
      obtain ⟨h1, h2⟩ := @ih found.1 (by simpa using hfound)
      exact ⟨by simpa using h1, h2⟩

theorem applyParameterOp_mSubscription {μ : Type} (w : ParameterWorld μ) (op : ParameterOp μ) :
    (applyParameterOp w op).internals.mSubscription = w.internals.mSubscription := by
  cases op with
  | parameterCallback message => rfl
  | elsewhere scene mMRMLNode => rfl
  | addToROS2Node nodeId trackedNodeName errorMessage =>
    simp only [applyParameterOp, AddToROS2Node]
    split
    · rfl
    · split <;> rfl

theorem foldl_applyParameterOp_mSubscription {μ : Type} (ops : List (ParameterOp μ))
    (w : ParameterWorld μ) :
    (ops.foldl applyParameterOp w).internals.mSubscription = w.internals.mSubscription := by
  induction ops generalizing w with
  | nil => rfl
  | cons op ops ih => simp only [List.foldl, ih, applyParameterOp_mSubscription]

theorem shortChainEnv_run :
    (loadRobotSTLModels shortChainEnv exampleScene).fault = some Fault.outOfBounds ∧
      (loadRobotSTLModels shortChainEnv exampleScene).scene.length = 15 := by
  simp [loadRobotSTLModels, shortChainEnv, exampleEnv, synchronize, range6, range7,
    initialPositionIteration, fkNodeIteration, AddNode, exampleScene, link_names,
    link_names_FK, exampleModel, GetFirstNodeByName, SafeDownCast,
    SetAndObserveTransformNodeID, SetAndObserveStorageNodeID, SetMatrixTransformToParent,
    ConcatenateToParent, initialFrames, jointPositionLoop, newLinearTransformNode,
    newTransformStorageNode, NodeClass.isModel, NodeClass.isTransform]

theorem exampleParameterWorld_lookups :
    GetNodeByID exampleParameterWorld.scene "vtkMRMLROS2NODENode7" = none ∧
    GetNodeByID exampleParameterWorld.scene "vtkMRMLModelNode1" =
      some (0, exampleModelSceneNode) ∧
    GetNodeByID exampleParameterWorld.scene "vtkMRMLROS2NODENode1" =
      some (1, exampleROS2Node) := by
  simp [GetNodeByID, exampleParameterWorld, newParameterWorld, exampleParameterScene,
    exampleModelSceneNode, exampleROS2Node]

/-- C1, the code at the failing input: whatever status the solver returns
(so also when it reports a failure and leaves the frame vector as it was), the
run is not aborted and the scene is not left as it was: both loops run, forty nodes are added
to the seven models, twenty of them transform nodes, and the node created for
the first frame holds the unsolved default frame. -/
theorem C1_failed_solve_is_not_aborted (status : Int) :
    (loadRobotSTLModels (exampleEnv status) exampleScene).fault = none ∧
    (loadRobotSTLModels (exampleEnv status) exampleScene).scene.length =
      exampleScene.length + 40 ∧
    transformCount (loadRobotSTLModels (exampleEnv status) exampleScene).scene =
      transformCount exampleScene + 20 ∧
    ((loadRobotSTLModels (exampleEnv status) exampleScene).scene[8]?).map
      (fun n => (n.name, n.toParent.matrix)) = some ("forwardKin_torso", 1) := by
  obtain ⟨log, heq, hok⟩ := completes_sync _ _ _ (exampleEnv_completes status)
  refine ⟨(exampleEnv_run status).1, (exampleEnv_run status).2, ?_, ?_⟩
  · rw [heq, synchronize_transformCount _ _ rfl hok]
    rfl
  · obtain ⟨c, hc, hnode⟩ := synchronize_fkNode _ _ rfl hok 0 (by omega)
    have hc1 : c = 1 := by
      simp [solvedFrames, exampleEnv, initialFrames] at hc
      exact hc.symm
    rw [heq]
    have h8 : (sceneForSync (exampleEnv status) exampleScene).length + (2 * 0 + 1) = 8 := rfl
    simp only [h8] at hnode
    rw [hnode, hc1]
    rfl

/-- C2, the code at the failing input: on a scene that holds the model of
"base" alone, the run stops on a null pointer (the lookup of "torso" is used
unchecked); by then twenty nodes have been added and the parent reference of
the model "base" has been overwritten. -/
theorem C2_missing_model_null_dereference :
    (loadRobotSTLModels (exampleEnv 0) [exampleModel "base"]).fault =
      some Fault.nullDereference ∧
    (loadRobotSTLModels (exampleEnv 0) [exampleModel "base"]).scene.length = 21 ∧
    ((loadRobotSTLModels (exampleEnv 0) [exampleModel "base"]).scene[0]?).map
      (fun n => (n.name, n.transformNodeID)) = some ("base", some 16) := by
  simp [loadRobotSTLModels, exampleEnv, synchronize, range6, range7,
    initialPositionIteration, fkNodeIteration, AddNode, link_names,
    link_names_FK, exampleModel, GetFirstNodeByName, SafeDownCast,
    SetAndObserveTransformNodeID, SetAndObserveStorageNodeID, SetMatrixTransformToParent,
    ConcatenateToParent, initialFrames, jointPositionLoop, newLinearTransformNode,
    newTransformStorageNode, NodeClass.isModel, NodeClass.isTransform]

/-- C3, counterexample: after a run on the seven models, the node created for
pose 1 ("forwardKin_upperarm", ID 10) has no parent reference; in particular
its parent is not the node created for pose 0 ("forwardKin_torso", ID 8). -/
theorem C3_counterexample :
    ((loadRobotSTLModels (exampleEnv 0) exampleScene).scene[8]?).map (fun n => n.name) =
      some "forwardKin_torso" ∧
    ((loadRobotSTLModels (exampleEnv 0) exampleScene).scene[10]?).map
      (fun n => (n.name, n.transformNodeID)) = some ("forwardKin_upperarm", none) ∧
    ((loadRobotSTLModels (exampleEnv 0) exampleScene).scene[10]?).bind
      (fun n => n.transformNodeID) ≠ some 8 := by
  simp [loadRobotSTLModels, exampleEnv, synchronize, range6, range7,
    initialPositionIteration, fkNodeIteration, AddNode, exampleScene, link_names,
    link_names_FK, exampleModel, GetFirstNodeByName, SafeDownCast,
    SetAndObserveTransformNodeID, SetAndObserveStorageNodeID, SetMatrixTransformToParent,
    ConcatenateToParent, initialFrames, jointPositionLoop, newLinearTransformNode,
    newTransformStorageNode, NodeClass.isModel, NodeClass.isTransform]

/-- C3, amended: in a run that completes, for every `l < 6` the node created
for pose `l` is a linear transform node named `link_names_FK[l]` and has no
parent reference. -/
theorem C3_fk_nodes_have_no_parent {χ : Type} (env : Env χ) (scene : Scene) (kdl_chain : χ)
    (h : Completes env scene kdl_chain) (l : Nat) (hl : l < 6) :
    ∃ node,
      (loadRobotSTLModels env scene).scene[(sceneForSync env scene).length + (2 * l + 1)]? =
        some node ∧
      node.cls = NodeClass.linearTransform ∧ node.name = link_names_FK.getD l "" ∧
      node.transformNodeID = none := by
  obtain ⟨log, heq, hok⟩ := completes_sync env scene kdl_chain h
  obtain ⟨c, -, hnode⟩ := synchronize_fkNode _ _ rfl hok l hl
  rw [heq]
  exact ⟨_, hnode, rfl, rfl, rfl⟩

theorem C3_fk_nodes_have_no_parent_witness :
    Completes (exampleEnv 0) exampleScene 6 ∧ 1 < 6 ∧
    ∃ node,
      (loadRobotSTLModels (exampleEnv 0) exampleScene).scene[
        (sceneForSync (exampleEnv 0) exampleScene).length + (2 * 1 + 1)]? = some node ∧
      node.cls = NodeClass.linearTransform ∧ node.name = link_names_FK.getD 1 "" ∧
      node.transformNodeID = none :=
  ⟨exampleEnv_completes 0, by decide,
    C3_fk_nodes_have_no_parent (exampleEnv 0) exampleScene 6 (exampleEnv_completes 0) 1
      (by decide)⟩

/-- C4, counterexample: with a solver that leaves identity frames, the matrix
written to the node "forwardKin_torso" is pose 0 itself, the identity, and not
pose 0 composed (on either side) with the correction matrix. -/
theorem C4_counterexample :
    ∃ node pose, (solvedFrames (exampleEnv 0) 6)[0]? = some pose ∧
      (loadRobotSTLModels (exampleEnv 0) exampleScene).scene[8]? = some node ∧
      node.name = "forwardKin_torso" ∧
      node.toParent.matrix ≠ pose * LPSToRAS_matrix ∧
      node.toParent.matrix ≠ LPSToRAS_matrix * pose := by
  obtain ⟨log, heq, hok⟩ := completes_sync _ _ _ (exampleEnv_completes 0)
  obtain ⟨c, hc, hnode⟩ := synchronize_fkNode _ _ rfl hok 0 (by omega)
  have hc1 : c = 1 := by
    simp [solvedFrames, exampleEnv, initialFrames] at hc
    exact hc.symm
  subst hc1
  refine ⟨fkNode ((sceneForSync (exampleEnv 0) exampleScene).length + 2 * 0) 0 1, 1, hc, ?_,
    rfl, ?_, ?_⟩
  · rw [heq]
    exact hnode
  · simpa [fkNode] using one_ne_LPSToRAS_matrix
  · simpa [fkNode] using one_ne_LPSToRAS_matrix

/-- C4, amended: in a run that completes, for every `l < 6` the matrix written
to the transform node named `link_names_FK[l]` is pose `l` as the solver left
it, with nothing composed onto it. -/
theorem C4_fk_node_holds_pose {χ : Type} (env : Env χ) (scene : Scene) (kdl_chain : χ)
    (h : Completes env scene kdl_chain) (l : Nat) (hl : l < 6) :
    ∃ node pose, (solvedFrames env kdl_chain)[l]? = some pose ∧
      (loadRobotSTLModels env scene).scene[(sceneForSync env scene).length + (2 * l + 1)]? =
        some node ∧
      node.name = link_names_FK.getD l "" ∧
      node.toParent.matrix = pose ∧ node.toParent.ops = [] := by
  obtain ⟨log, heq, hok⟩ := completes_sync env scene kdl_chain h
  obtain ⟨c, hc, hnode⟩ := synchronize_fkNode _ _ rfl hok l hl
  rw [heq]
  exact ⟨_, c, hc, hnode, rfl, rfl, rfl⟩

theorem C4_fk_node_holds_pose_witness :
    Completes (exampleEnv 0) exampleScene 6 ∧ 2 < 6 ∧
    ∃ node pose, (solvedFrames (exampleEnv 0) 6)[2]? = some pose ∧
      (loadRobotSTLModels (exampleEnv 0) exampleScene).scene[
        (sceneForSync (exampleEnv 0) exampleScene).length + (2 * 2 + 1)]? = some node ∧
      node.name = link_names_FK.getD 2 "" ∧
      node.toParent.matrix = pose ∧ node.toParent.ops = [] :=
  ⟨exampleEnv_completes 0, by decide,
    C4_fk_node_holds_pose (exampleEnv 0) exampleScene 6 (exampleEnv_completes 0) 2
      (by decide)⟩

/-- C5, counterexample: a first run on the seven models completes and leaves 20
transform nodes, 7 of them named "InitialPosition"; a second run on the scene
it produced completes too and leaves 40. -/
theorem C5_counterexample :
    (loadRobotSTLModels (exampleEnv 0) exampleScene).fault = none ∧
    (loadRobotSTLModels (exampleEnv 0)
      (loadRobotSTLModels (exampleEnv 0) exampleScene).scene).fault = none ∧
    transformCount (loadRobotSTLModels (exampleEnv 0) exampleScene).scene = 20 ∧
    namedTransformCount "InitialPosition"
      (loadRobotSTLModels (exampleEnv 0) exampleScene).scene = 7 ∧
    transformCount (loadRobotSTLModels (exampleEnv 0)
      (loadRobotSTLModels (exampleEnv 0) exampleScene).scene).scene = 40 := by
  have hc1 := exampleEnv_completes 0
  have hc2 : Completes (exampleEnv 0) (loadRobotSTLModels (exampleEnv 0) exampleScene).scene 6 :=
    ⟨⟨"/home/user", rfl, rfl⟩, rfl, rfl, exampleEnv_second_run⟩
  obtain ⟨log1, heq1, hok1⟩ := completes_sync _ _ _ hc1
  obtain ⟨log2, heq2, hok2⟩ := completes_sync _ _ _ hc2
  have ht1 : transformCount (loadRobotSTLModels (exampleEnv 0) exampleScene).scene = 20 := by
    rw [heq1, synchronize_transformCount _ _ rfl hok1]
    rfl
  have hn1 : namedTransformCount "InitialPosition"
      (loadRobotSTLModels (exampleEnv 0) exampleScene).scene = 7 := by
    rw [heq1, synchronize_namedCount "InitialPosition" (by simp [link_names_FK]) _ _ rfl hok1]
    rfl
  refine ⟨hc1.2.2.2, exampleEnv_second_run, ht1, hn1, ?_⟩
  rw [heq2, synchronize_transformCount _ _ rfl hok2]
  show transformCount (loadRobotSTLModels (exampleEnv 0) exampleScene).scene + 20 = 40
  rw [ht1]

/-- C5, amended: every run that completes adds exactly 20 transform nodes to
the scene the script left, 7 of them named "InitialPosition" and 7 named
"LPSToRAS", whatever the scene already holds. -/
theorem C5_each_run_adds_twenty_transform_nodes {χ : Type} (env : Env χ) (scene : Scene)
    (kdl_chain : χ) (h : Completes env scene kdl_chain) :
    transformCount (loadRobotSTLModels env scene).scene =
      transformCount (sceneForSync env scene) + 20 ∧
    namedTransformCount "InitialPosition" (loadRobotSTLModels env scene).scene =
      namedTransformCount "InitialPosition" (sceneForSync env scene) + 7 ∧
    namedTransformCount "LPSToRAS" (loadRobotSTLModels env scene).scene =
      namedTransformCount "LPSToRAS" (sceneForSync env scene) + 7 := by
  obtain ⟨log, heq, hok⟩ := completes_sync env scene kdl_chain h
  rw [heq]
  refine ⟨synchronize_transformCount _ _ rfl hok, ?_, ?_⟩
  · rw [synchronize_namedCount "InitialPosition" (by simp [link_names_FK]) _ _ rfl hok]
    simp
  · rw [synchronize_namedCount "LPSToRAS" (by simp [link_names_FK]) _ _ rfl hok]
    simp

theorem C5_each_run_adds_twenty_transform_nodes_witness :
    Completes (exampleEnv 0) exampleScene 6 ∧
    transformCount (loadRobotSTLModels (exampleEnv 0) exampleScene).scene =
      transformCount (sceneForSync (exampleEnv 0) exampleScene) + 20 ∧
    namedTransformCount "InitialPosition" (loadRobotSTLModels (exampleEnv 0) exampleScene).scene =
      namedTransformCount "InitialPosition" (sceneForSync (exampleEnv 0) exampleScene) + 7 ∧
    namedTransformCount "LPSToRAS" (loadRobotSTLModels (exampleEnv 0) exampleScene).scene =
      namedTransformCount "LPSToRAS" (sceneForSync (exampleEnv 0) exampleScene) + 7 :=
  ⟨exampleEnv_completes 0,
    C5_each_run_adds_twenty_transform_nodes (exampleEnv 0) exampleScene 6
      (exampleEnv_completes 0)⟩

/-- C6: the solver yields one pose per joint of the chain when the
configuration has the length of the chain and fails with the length-mismatch
error otherwise; in `loadRobotSTLModels` the joint array and the frame vector
both have the length of the chain, so the solver succeeds there and the frames
it leaves are as many as the chain is long. -/
theorem C6_solve_length (t : Trig) (chain : Chain) (cfg : List ℚ) (env : Env Chain) :
    (cfg.length = chain.length →
      ∃ poses, solve t chain cfg = .ok poses ∧ poses.length = chain.length) ∧
    (cfg.length ≠ chain.length →
      solve t chain cfg = .error FKError.configurationLengthMismatch) ∧
    ((jointPositionLoop ((withSpecSolver t env).getNrOfSegments chain)).1.length =
        chain.length ∧
      (initialFrames (withSpecSolver t env)
        ((withSpecSolver t env).getNrOfSegments chain)).length = chain.length ∧
      solve t chain (jointPositionLoop ((withSpecSolver t env).getNrOfSegments chain)).1 =
        .ok (solvedFrames (withSpecSolver t env) chain) ∧
      (solvedFrames (withSpecSolver t env) chain).length = chain.length) := by
  have hq : (jointPositionLoop chain.length).1.length = chain.length :=
    jointPositionLoop_length chain.length
  have hsolve : solve t chain (jointPositionLoop chain.length).1 =
      .ok (solveFrom t 1 chain (jointPositionLoop chain.length).1) := by
    simp [solve, hq]
  refine ⟨?_, ?_, ?_, ?_, ?_, ?_⟩
  · intro h
    exact ⟨solveFrom t 1 chain cfg, by simp [solve, h], solveFrom_length t chain cfg 1 h⟩
  · intro h
    simp [solve, h]
  · exact hq
  · simp [initialFrames, withSpecSolver]
  · simp only [withSpecSolver, solvedFrames, specJntToCart, hsolve]
  · simp only [withSpecSolver, solvedFrames, specJntToCart, hsolve]
    exact solveFrom_length t chain _ 1 hq

theorem C6_solve_length_witness :
    ([0, 0, 0] : List ℚ).length = exampleChain.length ∧
    (∃ poses, solve exampleTrig exampleChain [0, 0, 0] = .ok poses ∧
      poses.length = exampleChain.length) ∧
    ([0] : List ℚ).length ≠ exampleChain.length ∧
    solve exampleTrig exampleChain [0] = .error FKError.configurationLengthMismatch :=
  ⟨rfl, (C6_solve_length exampleTrig exampleChain [0, 0, 0] exampleChainEnv).1 rfl,
    by decide,
    (C6_solve_length exampleTrig exampleChain [0] exampleChainEnv).2.1 (by decide)⟩

/-- C7, counterexample: when the description fails to load, the run returns
with nothing for its caller: no fault, nothing printed, the scene as it was. -/
theorem C7_counterexample :
    loadRobotSTLModels parseFailEnv exampleScene =
      { scene := exampleScene, log := [], fault := none } := by
  rfl

/-- C7, amended: when the description fails to load or to parse, the run
returns without a fault, prints nothing and leaves the scene as it was; when no
chain exists from "base" to "stylus", the run returns without a fault, its last
output is "not working" on the error stream, and the scene is the one the script
left: the function itself has added no node. -/
theorem C7_load_failures_return_silently {χ : Type} (env : Env χ) (scene : Scene)
    (home : String) (hhome : env.home = some home) :
    (env.initFile (home ++ "/ros2_ws/src/SlicerRos2/models/omni.urdf") = false ∨
        env.treeFromUrdfModel = false →
      loadRobotSTLModels env scene = { scene := scene, log := [], fault := none }) ∧
    (env.initFile (home ++ "/ros2_ws/src/SlicerRos2/models/omni.urdf") = true →
      env.treeFromUrdfModel = true → env.getChain "base" "stylus" = none →
      loadRobotSTLModels env scene =
        { scene := sceneForSync env scene,
          log := env.childLinks.map LogEntry.cerr ++ [LogEntry.cerr "not working"],
          fault := none }) := by
  refine ⟨?_, ?_⟩
  · rintro (h | h)
    · simp [loadRobotSTLModels, hhome, h]
    · cases hi : env.initFile (home ++ "/ros2_ws/src/SlicerRos2/models/omni.urdf") <;>
        simp [loadRobotSTLModels, hhome, h, hi]
  · intro hi ht hc
    simp [loadRobotSTLModels, hhome, hi, ht, hc, sceneForSync]

theorem C7_load_failures_return_silently_witness :
    (parseFailEnv.home = some "/home/user" ∧
      (parseFailEnv.initFile ("/home/user" ++ "/ros2_ws/src/SlicerRos2/models/omni.urdf") =
          false ∨ parseFailEnv.treeFromUrdfModel = false) ∧
      loadRobotSTLModels parseFailEnv exampleScene =
        { scene := exampleScene, log := [], fault := none }) ∧
    (noChainEnv.home = some "/home/user" ∧
      noChainEnv.initFile ("/home/user" ++ "/ros2_ws/src/SlicerRos2/models/omni.urdf") = true ∧
      noChainEnv.treeFromUrdfModel = true ∧ noChainEnv.getChain "base" "stylus" = none ∧
      loadRobotSTLModels noChainEnv exampleScene =
        { scene := sceneForSync noChainEnv exampleScene,
          log := noChainEnv.childLinks.map LogEntry.cerr ++ [LogEntry.cerr "not working"],
          fault := none }) :=
  ⟨⟨rfl, Or.inl rfl,
      (C7_load_failures_return_silently parseFailEnv exampleScene "/home/user" rfl).1
        (Or.inl rfl)⟩,
    ⟨rfl, rfl, rfl, rfl,
      (C7_load_failures_return_silently noChainEnv exampleScene "/home/user" rfl).2
        rfl rfl rfl⟩⟩

/-- C9: the correction matrix is the identity except for -1 at (0,0) and (1,1);
after a run that completes on a scene whose nodes named after a forward
kinematics frame have no parent, for every `k < 7` the parent path from the
model of link `k` to the root meets exactly one correction node, and that node
holds this one matrix with nothing composed onto it. -/
theorem C9_single_fixed_correction {χ : Type} (env : Env χ) (scene : Scene) (kdl_chain : χ)
    (h : Completes env scene kdl_chain)
    (hu : FKNodesUnparented (sceneForSync env scene)) :
    (∀ i j : Fin 4, LPSToRAS_matrix i j =
      if i = j then (if i = 0 ∨ i = 1 then -1 else 1) else 0) ∧
    ∀ k, k < 7 →
      ∃ m c correction,
        GetFirstNodeByName (loadRobotSTLModels env scene).scene (link_names.getD k "") =
          some m ∧
        (parentPath (loadRobotSTLModels env scene).scene
            (loadRobotSTLModels env scene).scene.length m).filter
          (isCorrectionNode (loadRobotSTLModels env scene).scene) = [c] ∧
        (loadRobotSTLModels env scene).scene[c]? = some correction ∧
        correction.toParent.matrix = LPSToRAS_matrix ∧ correction.toParent.ops = [] := by
  refine ⟨?_, ?_⟩
  · intro i j
    fin_cases i <;> fin_cases j <;> simp [LPSToRAS_matrix, SetElement]
  · intro k hk
    obtain ⟨log, heq, hok⟩ := completes_sync env scene kdl_chain h
    rw [heq]
    have hlen := synchronize_length _ _ rfl hok
    exact parentPath_single_correction _ k hk _ (by omega)
      (synchronize_wired _ _ rfl hok k hk) (synchronize_unparented _ _ rfl hok hu)

theorem C9_single_fixed_correction_witness :
    Completes (exampleEnv 0) exampleScene 6 ∧
    FKNodesUnparented (sceneForSync (exampleEnv 0) exampleScene) ∧
    ∃ m c correction,
      GetFirstNodeByName (loadRobotSTLModels (exampleEnv 0) exampleScene).scene
        (link_names.getD 6 "") = some m ∧
      (parentPath (loadRobotSTLModels (exampleEnv 0) exampleScene).scene
          (loadRobotSTLModels (exampleEnv 0) exampleScene).scene.length m).filter
        (isCorrectionNode (loadRobotSTLModels (exampleEnv 0) exampleScene).scene) = [c] ∧
      (loadRobotSTLModels (exampleEnv 0) exampleScene).scene[c]? = some correction ∧
      correction.toParent.matrix = LPSToRAS_matrix ∧ correction.toParent.ops = [] :=
  ⟨exampleEnv_completes 0, exampleScene_unparented,
    (C9_single_fixed_correction (exampleEnv 0) exampleScene 6 (exampleEnv_completes 0)
      exampleScene_unparented).2 6 (by decide)⟩

/-- C10: with a cosine and a sine that are exact at 0, solving a chain with the
all-zero configuration yields, for each segment, the accumulated product of the
fixed offsets up to that segment; in particular a chain of 3 rotational joints
with zero fixed offsets and the configuration [0,0,0] yields 3 identity poses. -/
theorem C10_zero_configuration (t : Trig) (hc : t.cos 0 = 1) (hs : t.sin 0 = 0)
    (chain : Chain) :
    solve t chain (List.replicate chain.length 0) = .ok (accumulatedOffsets 1 chain) ∧
    ∀ j1 j2 j3 : Joint,
      j1.type = JointType.rotational → j2.type = JointType.rotational →
      j3.type = JointType.rotational → j1.offset = 1 → j2.offset = 1 → j3.offset = 1 →
      solve t [j1, j2, j3] [0, 0, 0] = .ok [1, 1, 1] := by
  refine ⟨?_, ?_⟩
  · simp [solve, solveFrom_zero t hc hs]
  · intro j1 j2 j3 _ _ _ h1 h2 h3
    have h := solveFrom_zero t hc hs [j1, j2, j3] 1
    simp only [List.length_cons, List.length_nil, List.replicate_succ, List.replicate_zero,
      accumulatedOffsets, h1, h2, h3, mul_one] at h
    simp [solve, h]

theorem C10_zero_configuration_witness :
    exampleTrig.cos 0 = 1 ∧ exampleTrig.sin 0 = 0 ∧
    solve exampleTrig exampleChain (List.replicate exampleChain.length 0) =
      .ok (accumulatedOffsets 1 exampleChain) ∧
    solve exampleTrig exampleChain [0, 0, 0] = .ok [1, 1, 1] :=
  ⟨by simp [exampleTrig], by simp [exampleTrig],
    (C10_zero_configuration exampleTrig (by simp [exampleTrig]) (by simp [exampleTrig])
      exampleChain).1,
    (C10_zero_configuration exampleTrig (by simp [exampleTrig]) (by simp [exampleTrig])
      exampleChain).2 _ _ _ rfl rfl rfl rfl rfl rfl⟩

/-- C11: when the scene has no node with the given ID, `AddToROS2Node` returns
false with the message "unable to locate node"; when the node found is not a
ROS2 node it returns false with the name of that node followed by
" doesn't seem to be a vtkMRMLROS2NODENode". In both cases the world is left as
it was: no parameter event handler is created and no node reference of any
node is added or changed. -/
theorem C11_AddToROS2Node_failures {μ : Type} (w : ParameterWorld μ)
    (nodeId trackedNodeName errorMessage : String) :
    (GetNodeByID w.scene nodeId = none →
      AddToROS2Node w nodeId trackedNodeName errorMessage =
        { returned := false, errorMessage := "unable to locate node", world := w }) ∧
    (∀ position node, GetNodeByID w.scene nodeId = some (position, node) →
      node.isROS2NODENode = false →
      AddToROS2Node w nodeId trackedNodeName errorMessage =
        { returned := false,
          errorMessage := node.name ++ " doesn't seem to be a vtkMRMLROS2NODENode",
          world := w }) := by
  refine ⟨?_, ?_⟩
  · intro h
    simp [AddToROS2Node, h]
  · intro position node h hros
    simp [AddToROS2Node, h, hros]

theorem C11_AddToROS2Node_failures_witness :
    (GetNodeByID exampleParameterWorld.scene "vtkMRMLROS2NODENode7" = none ∧
      AddToROS2Node exampleParameterWorld "vtkMRMLROS2NODENode7" "turtlesim" "" =
        { returned := false, errorMessage := "unable to locate node",
          world := exampleParameterWorld }) ∧
    (GetNodeByID exampleParameterWorld.scene "vtkMRMLModelNode1" =
        some (0, exampleModelSceneNode) ∧
      exampleModelSceneNode.isROS2NODENode = false ∧
      AddToROS2Node exampleParameterWorld "vtkMRMLModelNode1" "turtlesim" "" =
        { returned := false,
          errorMessage :=
            exampleModelSceneNode.name ++ " doesn't seem to be a vtkMRMLROS2NODENode",
          world := exampleParameterWorld }) :=
  ⟨⟨exampleParameterWorld_lookups.1,
      (C11_AddToROS2Node_failures exampleParameterWorld "vtkMRMLROS2NODENode7"
        "turtlesim" "").1 exampleParameterWorld_lookups.1⟩,
    ⟨exampleParameterWorld_lookups.2.1, rfl,
      (C11_AddToROS2Node_failures exampleParameterWorld "vtkMRMLModelNode1"
        "turtlesim" "").2 0 exampleModelSceneNode exampleParameterWorld_lookups.2.1 rfl⟩⟩

/-- C12: when the ID names a ROS2 node of the scene (and IDs are the non-empty
strings MRML gives, the parameter node having one), `AddToROS2Node` returns
true and leaves `errorMessage` as it was; the ID of the parameter node becomes
the last "parameter" reference of the ROS2 node, so that their number grows by
one and every earlier one keeps its index and value; no other reference of that
node and no other node of the scene changes; and the "node" reference of the
parameter node is the given ID, its other roles being as they were. -/
theorem C12_AddToROS2Node_success {μ : Type} (w : ParameterWorld μ)
    (nodeId trackedNodeName errorMessage : String) (position : Nat)
    (rosNode : ParameterSceneNode) (parameterId : String)
    (hfound : GetNodeByID w.scene nodeId = some (position, rosNode))
    (hros : rosNode.isROS2NODENode = true)
    (hid : w.mMRMLNode.id = some parameterId) (hpid : parameterId ≠ "")
    (hnode : nodeId ≠ "") :
    (AddToROS2Node w nodeId trackedNodeName errorMessage).returned = true ∧
    (AddToROS2Node w nodeId trackedNodeName errorMessage).errorMessage = errorMessage ∧
    (∃ after,
      (AddToROS2Node w nodeId trackedNodeName errorMessage).world.scene[position]? =
        some after ∧
      after.references "parameter" = rosNode.references "parameter" ++ [parameterId] ∧
      GetNumberOfNodeReferences after.references "parameter" =
        GetNumberOfNodeReferences rosNode.references "parameter" + 1 ∧
      (∀ i, i < GetNumberOfNodeReferences rosNode.references "parameter" →
        (after.references "parameter")[i]? = (rosNode.references "parameter")[i]?) ∧
      (∀ role, role ≠ "parameter" → after.references role = rosNode.references role) ∧
      after.id = rosNode.id ∧ after.name = rosNode.name) ∧
    (∀ j, j ≠ position →
      (AddToROS2Node w nodeId trackedNodeName errorMessage).world.scene[j]? = w.scene[j]?) ∧
    ((AddToROS2Node w nodeId trackedNodeName errorMessage).world.mMRMLNode.references
      "node").head? = some nodeId ∧
    (∀ role, role ≠ "node" →
      (AddToROS2Node w nodeId trackedNodeName errorMessage).world.mMRMLNode.references role =
        w.mMRMLNode.references role) := by
  obtain ⟨hget, -⟩ := GetNodeByID_some hfound
  refine ⟨?_, ?_, ?_, ?_, ?_, ?_⟩
  · simp [AddToROS2Node, hfound, hros]
  · simp [AddToROS2Node, hfound, hros]
  · refine ⟨{ rosNode with
        references := SetNthNodeReferenceID rosNode.references "parameter"
          (GetNumberOfNodeReferences rosNode.references "parameter") w.mMRMLNode.id },
      ?_, ?_, ?_, ?_, ?_, rfl, rfl⟩
    · simp [AddToROS2Node, hfound, hros, hget]
    · simp [SetNthNodeReferenceID, GetNumberOfNodeReferences, hid, hpid]
    · simp [SetNthNodeReferenceID, GetNumberOfNodeReferences, hid, hpid]
    · intro i hi
      simp only [GetNumberOfNodeReferences] at hi
      simp [SetNthNodeReferenceID, GetNumberOfNodeReferences, hid, hpid,
        List.getElem?_append_left hi]
    · intro role hrole
      simp [SetNthNodeReferenceID, Function.update, hrole]
  · intro j hj
    simp [AddToROS2Node, hfound, hros, List.getElem?_modify_ne _ _ (Ne.symm hj)]
  · simp only [AddToROS2Node, hfound, hros, SetNodeReferenceID, SetNthNodeReferenceID]
    cases hrefs : w.mMRMLNode.references "node" <;> simp [hrefs, hnode]
  · intro role hrole
    simp [AddToROS2Node, hfound, hros, SetNodeReferenceID, SetNthNodeReferenceID,
      Function.update, hrole]

theorem C12_AddToROS2Node_success_witness :
    GetNodeByID exampleParameterWorld.scene "vtkMRMLROS2NODENode1" =
      some (1, exampleROS2Node) ∧
    exampleROS2Node.isROS2NODENode = true ∧
    exampleParameterWorld.mMRMLNode.id = some "vtkMRMLROS2ParameterNode2" ∧
    "vtkMRMLROS2ParameterNode2" ≠ "" ∧ "vtkMRMLROS2NODENode1" ≠ "" ∧
    (AddToROS2Node exampleParameterWorld "vtkMRMLROS2NODENode1" "turtlesim" "").returned =
      true ∧
    (AddToROS2Node exampleParameterWorld "vtkMRMLROS2NODENode1" "turtlesim" "").errorMessage =
      "" ∧
    ((AddToROS2Node exampleParameterWorld "vtkMRMLROS2NODENode1" "turtlesim"
      "").world.mMRMLNode.references "node").head? = some "vtkMRMLROS2NODENode1" :=
  have h := C12_AddToROS2Node_success exampleParameterWorld "vtkMRMLROS2NODENode1"
    "turtlesim" "" 1 exampleROS2Node "vtkMRMLROS2ParameterNode2"
    exampleParameterWorld_lookups.2.2 rfl rfl (by decide) (by decide)
  ⟨exampleParameterWorld_lookups.2.2, rfl, rfl, by decide, by decide, h.1, h.2.1,
    h.2.2.2.2.1⟩

/-- C13: in every state reached from the constructor by calls of
`ParameterCallback` and `AddToROS2Node` and by changes made elsewhere to the
scene and the parameter node, `IsAddedToROS2Node` returns false, also right
after a further call of `AddToROS2Node`, whatever that call returned:
`mSubscription` is never assigned. -/
theorem C13_IsAddedToROS2Node_is_false {μ : Type} (scene : List ParameterSceneNode)
    (mMRMLNode : ParameterNode) (message : μ) (ops : List (ParameterOp μ)) :
    IsAddedToROS2Node
      (ops.foldl applyParameterOp (newParameterWorld scene mMRMLNode message)).internals =
        false ∧
    ∀ nodeId trackedNodeName errorMessage,
      IsAddedToROS2Node
        (AddToROS2Node (ops.foldl applyParameterOp (newParameterWorld scene mMRMLNode message))
          nodeId trackedNodeName errorMessage).world.internals = false := by
  have h : ∀ ops : List (ParameterOp μ),
      (ops.foldl applyParameterOp
        (newParameterWorld scene mMRMLNode message)).internals.mSubscription = none := by
    intro ops
    rw [foldl_applyParameterOp_mSubscription]
    rfl
  refine ⟨?_, ?_⟩
  · simp [IsAddedToROS2Node, h ops]
  · intro nodeId trackedNodeName errorMessage
    have h2 := h (ops ++ [ParameterOp.addToROS2Node nodeId trackedNodeName errorMessage])
    simp only [List.foldl_append, List.foldl, applyParameterOp] at h2
    simp [IsAddedToROS2Node, h2]

/-- C14, the code at the failing input: for a chain of three segments the frame
vector has three entries, and the loop over `l < 6` reads it at index 3: the
run stops on an out-of-bounds read, after the nodes of the turns 0 to 3 have
been added. -/
theorem C14_short_chain_reads_out_of_bounds :
    shortChainEnv.getChain "base" "stylus" = some 3 ∧
    (solvedFrames shortChainEnv 3).length = shortChainEnv.getNrOfSegments 3 ∧
    (solvedFrames shortChainEnv 3)[3]? = none ∧
    (loadRobotSTLModels shortChainEnv exampleScene).fault = some Fault.outOfBounds ∧
    (loadRobotSTLModels shortChainEnv exampleScene).scene.length =
      exampleScene.length + 8 := by
  refine ⟨rfl, ?_, ?_, shortChainEnv_run.1, shortChainEnv_run.2⟩
  · simp [solvedFrames, shortChainEnv, exampleEnv, initialFrames]
  · simp [solvedFrames, shortChainEnv, exampleEnv, initialFrames]

end SlicerRos2
